import Mathlib

/-!
Shallow embedding of the `AudioEngine` class from `src/lib/audio/engine.ts`
of the wave-generator repository, together with proofs about its settings
classification, graph construction, parameter ramping and teardown logic.

Modelling conventions:
* Web Audio nodes are identified by natural numbers allocated from a
  per-context counter (`nextId`).  Node identity is only meaningful relative
  to a live `AudioContext`; closing the context (in `cleanup`) destroys every
  node, so the counter and the context clock are reset together with it.
* Every engine method is a pure function `EngineState → EngineState × List
  AudioEvent`: the returned event list is the sequence of observable Web
  Audio API calls (node creation, connect/disconnect, setValueAtTime,
  linearRampToValueAtTime, start/stop) the method performs, in order.
* `AudioContext.currentTime` is carried as a rational field of the state;
  the engine itself never advances it (all scheduling within one call uses a
  single `now` sample, exactly as the source does).
* Frequencies, gains and depths are rationals; the source uses JS doubles,
  but every arithmetic operation involved in the claims (subtraction,
  addition, halving, scaling by 10) is exact on the inputs considered.
-/

namespace WaveGen

/-- Noise colour enumeration, from `src/lib/types/audio.ts`. -/
inductive NoiseType
  | white
  | pink
  | brown
  | none
deriving DecidableEq, Repr

/-- Complete settings record `ModulationSettings` from `src/lib/types/audio.ts`
(the flattened fields of `AudioSettings` plus the modulation fields). -/
structure ModulationSettings where
  carrierFrequency : ℚ
  beatFrequency : ℚ
  volume : ℚ
  aModDepth : ℚ
  binauralIntensity : ℚ
  stereoDepth : ℚ
  fModDepth : ℚ
  noiseType : NoiseType
  noiseLevel : ℚ
  mixLevel : ℚ
deriving DecidableEq, Repr

/-- A `Partial<ModulationSettings>` delta: each field is present (`some`)
or absent (`none`), mirroring the JavaScript `"field" in settings` test. -/
structure SettingsDelta where
  carrierFrequency : Option ℚ := Option.none
  beatFrequency : Option ℚ := Option.none
  volume : Option ℚ := Option.none
  aModDepth : Option ℚ := Option.none
  binauralIntensity : Option ℚ := Option.none
  stereoDepth : Option ℚ := Option.none
  fModDepth : Option ℚ := Option.none
  noiseType : Option NoiseType := Option.none
  noiseLevel : Option ℚ := Option.none
  mixLevel : Option ℚ := Option.none
deriving DecidableEq, Repr

/-- The empty delta (no field present). -/
def SettingsDelta.empty : SettingsDelta := {}

/-- Spread-merge `{ ...this.currentSettings, ...settings }` from
`updateSettings` (engine.ts line 508): fields present in the delta override
the current settings. -/
def mergeSettings (cs : ModulationSettings) (d : SettingsDelta) : ModulationSettings where
  carrierFrequency := d.carrierFrequency.getD cs.carrierFrequency
  beatFrequency := d.beatFrequency.getD cs.beatFrequency
  volume := d.volume.getD cs.volume
  aModDepth := d.aModDepth.getD cs.aModDepth
  binauralIntensity := d.binauralIntensity.getD cs.binauralIntensity
  stereoDepth := d.stereoDepth.getD cs.stereoDepth
  fModDepth := d.fModDepth.getD cs.fModDepth
  noiseType := d.noiseType.getD cs.noiseType
  noiseLevel := d.noiseLevel.getD cs.noiseLevel
  mixLevel := d.mixLevel.getD cs.mixLevel

/-- The test `"f" in settings && settings.f !== oldSettings.f` for a rational
field (engine.ts lines 513-516). -/
def changedQ (o : Option ℚ) (old : ℚ) : Bool :=
  match o with
  | Option.some v => v ≠ old
  | Option.none => false

/-- The test `"noiseType" in settings && settings.noiseType !== oldSettings.noiseType`
(engine.ts line 516). -/
def changedNoise (o : Option NoiseType) (old : NoiseType) : Bool :=
  match o with
  | Option.some v => v ≠ old
  | Option.none => false

/-- The test `"f" in settings && (settings.f === 0) !== (oldSettings.f === 0)`
for a modulation depth field (engine.ts lines 518-520): present and crossing
the zero boundary. -/
def crossesZero (o : Option ℚ) (old : ℚ) : Bool :=
  match o with
  | Option.some v => decide ((v = 0) ≠ (old = 0))
  | Option.none => false

/-- The `requiresRestart` classification of `updateSettings`
(engine.ts lines 511-523). -/
def requiresRestart (old : ModulationSettings) (d : SettingsDelta) : Bool :=
  changedQ d.carrierFrequency old.carrierFrequency ||
  changedQ d.beatFrequency old.beatFrequency ||
  changedQ d.binauralIntensity old.binauralIntensity ||
  changedNoise d.noiseType old.noiseType ||
  crossesZero d.aModDepth old.aModDepth ||
  crossesZero d.stereoDepth old.stereoDepth ||
  crossesZero d.fModDepth old.fModDepth

/-- Spec-side description of a structural delta, written from the spec's
words (spec section 4.1, `updateSettings`): "a change to `carrierFrequency`,
`beatFrequency`, `binauralIntensity`, or `noiseType`; or a change to
`aModDepth`/`stereoDepth`/`fModDepth` that crosses the zero boundary". -/
def StructuralSpec (old : ModulationSettings) (d : SettingsDelta) : Prop :=
  (∃ v, d.carrierFrequency = Option.some v ∧ v ≠ old.carrierFrequency) ∨
  (∃ v, d.beatFrequency = Option.some v ∧ v ≠ old.beatFrequency) ∨
  (∃ v, d.binauralIntensity = Option.some v ∧ v ≠ old.binauralIntensity) ∨
  (∃ t, d.noiseType = Option.some t ∧ t ≠ old.noiseType) ∨
  (∃ v, d.aModDepth = Option.some v ∧ ¬((v = 0) ↔ (old.aModDepth = 0))) ∨
  (∃ v, d.stereoDepth = Option.some v ∧ ¬((v = 0) ↔ (old.stereoDepth = 0))) ∨
  (∃ v, d.fModDepth = Option.some v ∧ ¬((v = 0) ↔ (old.fModDepth = 0)))

/-- Kinds of Web Audio nodes the engine creates. -/
inductive NodeKind
  | gain
  | oscillator
  | stereoPanner
  | channelMerger
  | bufferSource
  | destination
deriving DecidableEq, Repr

/-- AudioParam slots addressed by the engine. -/
inductive ParamKind
  | gain
  | frequency
  | pan
deriving DecidableEq, Repr

/-- Observable Web Audio API calls issued by an engine method, in order.
`connect` carries the optional `(output, input)` channel pair of the
three-argument `connect(dst, o, i)` form; `connectToParam` is a connection
into an AudioParam (`connect(node.param)`). `stopInvoked` marks an entry
into the engine's public `stop()` method. -/
inductive AudioEvent
  | contextCreated
  | contextClosed
  | createNode (id : Nat) (kind : NodeKind)
  | setValue (id : Nat) (p : ParamKind) (v : ℚ) (t : ℚ)
  | linearRamp (id : Nat) (p : ParamKind) (v : ℚ) (t : ℚ)
  | connect (src dst : Nat) (chans : Option (Nat × Nat))
  | connectToParam (src dst : Nat) (p : ParamKind)
  | disconnect (id : Nat)
  | startNode (id : Nat)
  | stopNode (id : Nat)
  | stopInvoked
  | warnLogged
  | errorLogged
deriving DecidableEq, Repr

/-- The private fields of the `AudioEngine` class (engine.ts lines 9-70).
`audioContext = some d` means a live context whose destination node has
identifier `d`.  Node identifiers and `currentTime` are scoped to the live
context. -/
structure EngineState where
  audioContext : Option Nat
  oscillator : Option Nat
  leftOscillator : Option Nat
  rightOscillator : Option Nat
  masterGain : Option Nat
  leftGain : Option Nat
  rightGain : Option Nat
  carrierGain : Option Nat
  noiseGain : Option Nat
  aModOscillator : Option Nat
  stereoLFO : Option Nat
  fModOscillator : Option Nat
  aModGain : Option Nat
  aModDepthGain : Option Nat
  stereoPanner : Option Nat
  stereoDepthGain : Option Nat
  fModDepthGain : Option Nat
  noiseNode : Option Nat
  isPlaying : Bool
  currentSettings : Option ModulationSettings
  leftChannelDestination : Option Nat
  rightChannelDestination : Option Nat
  mainOutputDestination : Option Nat
  currentTime : ℚ
  nextId : Nat
deriving DecidableEq, Repr

/-- The state of a freshly constructed `AudioEngine` (all fields null,
not playing). -/
def initState : EngineState where
  audioContext := Option.none
  oscillator := Option.none
  leftOscillator := Option.none
  rightOscillator := Option.none
  masterGain := Option.none
  leftGain := Option.none
  rightGain := Option.none
  carrierGain := Option.none
  noiseGain := Option.none
  aModOscillator := Option.none
  stereoLFO := Option.none
  fModOscillator := Option.none
  aModGain := Option.none
  aModDepthGain := Option.none
  stereoPanner := Option.none
  stereoDepthGain := Option.none
  fModDepthGain := Option.none
  noiseNode := Option.none
  isPlaying := false
  currentSettings := Option.none
  leftChannelDestination := Option.none
  rightChannelDestination := Option.none
  mainOutputDestination := Option.none
  currentTime := 0
  nextId := 0

/-- The `RAMP_TIME` constant (engine.ts line 70): 0.05 seconds. -/
def RAMP_TIME : ℚ := 1 / 20

/-- The `initialize()` method (engine.ts lines 77-102), success path: if a
context already exists it returns at once; otherwise it creates the context
and the five persistent gain nodes and wires master → destination,
carrier → master, noise → master.  (The context-construction failure branch
depends on the host environment and is outside the claims considered.) -/
def initEngine (st : EngineState) : EngineState × List AudioEvent :=
  if st.audioContext.isSome then (st, []) else
  let dest := st.nextId
  let master := st.nextId + 1
  let carrier := st.nextId + 2
  let left := st.nextId + 3
  let right := st.nextId + 4
  let noise := st.nextId + 5
  ({ st with
      audioContext := Option.some dest
      masterGain := Option.some master
      carrierGain := Option.some carrier
      leftGain := Option.some left
      rightGain := Option.some right
      noiseGain := Option.some noise
      nextId := st.nextId + 6 },
   [AudioEvent.contextCreated,
    AudioEvent.createNode dest NodeKind.destination,
    AudioEvent.createNode master NodeKind.gain,
    AudioEvent.connect master dest Option.none,
    AudioEvent.createNode carrier NodeKind.gain,
    AudioEvent.connect carrier master Option.none,
    AudioEvent.createNode left NodeKind.gain,
    AudioEvent.createNode right NodeKind.gain,
    AudioEvent.createNode noise NodeKind.gain,
    AudioEvent.connect noise master Option.none])

/-- One node operation inside the try-block of `stop()` (engine.ts lines
441-469): either `node.stop(now)` or `node.disconnect()`. -/
inductive StopOp
  | stopN (id : Nat)
  | disc (id : Nat)
deriving DecidableEq, Repr

/-- The event an individual stop/disconnect operation emits when it
succeeds. -/
def StopOp.event : StopOp → AudioEvent
  | StopOp.stopN i => AudioEvent.stopNode i
  | StopOp.disc i => AudioEvent.disconnect i

/-- The `x?.op()` optional-chaining pattern: an operation is attempted only
when the reference is non-null. -/
def optOp (f : Nat → StopOp) : Option Nat → List StopOp
  | Option.some i => [f i]
  | Option.none => []

/-- The sequence of node operations inside the try-block of `stop()`, in
source order (engine.ts lines 443-463): stop the seven source/LFO nodes,
then disconnect the modulation nodes, then the main path nodes. -/
def stopOps (st : EngineState) : List StopOp :=
  optOp StopOp.stopN st.oscillator ++
  optOp StopOp.stopN st.leftOscillator ++
  optOp StopOp.stopN st.rightOscillator ++
  optOp StopOp.stopN st.aModOscillator ++
  optOp StopOp.stopN st.stereoLFO ++
  optOp StopOp.stopN st.fModOscillator ++
  optOp StopOp.stopN st.noiseNode ++
  optOp StopOp.disc st.aModDepthGain ++
  optOp StopOp.disc st.stereoDepthGain ++
  optOp StopOp.disc st.fModDepthGain ++
  optOp StopOp.disc st.aModGain ++
  optOp StopOp.disc st.stereoPanner ++
  optOp StopOp.disc st.leftGain ++
  optOp StopOp.disc st.rightGain ++
  optOp StopOp.disc st.oscillator ++
  optOp StopOp.disc st.noiseNode

/-- Run a sequence of node operations under a failure oracle `fails`
(whether a given call throws).  JavaScript try-block semantics: operations
execute in order until the first one that throws; the thrown exception
aborts the rest of the block.  Returns the events of the operations that
executed and whether an exception was raised. -/
def runOps (fails : StopOp → Bool) : List StopOp → List AudioEvent × Bool
  | [] => ([], false)
  | op :: rest =>
    if fails op then ([], true)
    else
      let r := runOps fails rest
      (op.event :: r.1, r.2)

/-- The `stop()` method (engine.ts lines 437-494) under a failure oracle for
the node operations in its try-block.  The single catch handler logs a
warning; the reference-nulling and state reset after the try/catch always
run, and no exception propagates out of `stop`. -/
def stopWith (fails : StopOp → Bool) (st : EngineState) : EngineState × List AudioEvent :=
  if !st.isPlaying || st.audioContext.isNone then (st, [AudioEvent.stopInvoked]) else
  let r := runOps fails (stopOps st)
  ({ st with
      oscillator := Option.none
      leftOscillator := Option.none
      rightOscillator := Option.none
      aModOscillator := Option.none
      aModGain := Option.none
      aModDepthGain := Option.none
      stereoPanner := Option.none
      stereoLFO := Option.none
      stereoDepthGain := Option.none
      fModOscillator := Option.none
      fModDepthGain := Option.none
      noiseNode := Option.none
      leftChannelDestination := Option.none
      rightChannelDestination := Option.none
      mainOutputDestination := Option.none
      isPlaying := false },
   AudioEvent.stopInvoked :: r.1 ++ (if r.2 then [AudioEvent.warnLogged] else []))

/-- The `stop()` method in normal operation (no node call fails). -/
def stopEngine (st : EngineState) : EngineState × List AudioEvent :=
  stopWith (fun _ => false) st

/-- The `setupBasicOscillator` method (engine.ts lines 207-219): creates a
sine oscillator at `frequency`, connects it to `output`, starts it, and
records `output` as `mainOutputDestination`. -/
def setupBasicOscillator (st : EngineState) (frequency : ℚ) (output : Nat) :
    EngineState × List AudioEvent :=
  if st.audioContext.isNone then (st, []) else
  let osc := st.nextId
  ({ st with
      oscillator := Option.some osc
      mainOutputDestination := Option.some output
      nextId := st.nextId + 1 },
   [AudioEvent.createNode osc NodeKind.oscillator,
    AudioEvent.setValue osc ParamKind.frequency frequency st.currentTime,
    AudioEvent.connect osc output Option.none,
    AudioEvent.startNode osc])

/-- The `setupBinauralBeats` method (engine.ts lines 228-269): creates the
left/right oscillator pair at `carrier ∓ (beat × intensity) / 2`, resets the
channel gains to 1, wires oscillator → gain → merger channel, records the
merger as both channel destinations, and starts both oscillators. -/
def setupBinauralBeats (st : EngineState) (carrierFreq beatFreq intensity : ℚ)
    (output : Nat) : EngineState × List AudioEvent :=
  match st.audioContext, st.leftGain, st.rightGain with
  | Option.some _, Option.some lg, Option.some rg =>
    let leftOsc := st.nextId
    let rightOsc := st.nextId + 1
    let frequencyDifference := beatFreq * intensity
    let leftFreq := carrierFreq - frequencyDifference / 2
    let rightFreq := carrierFreq + frequencyDifference / 2
    ({ st with
        leftOscillator := Option.some leftOsc
        rightOscillator := Option.some rightOsc
        leftChannelDestination := Option.some output
        rightChannelDestination := Option.some output
        nextId := st.nextId + 2 },
     [AudioEvent.createNode leftOsc NodeKind.oscillator,
      AudioEvent.createNode rightOsc NodeKind.oscillator,
      AudioEvent.setValue leftOsc ParamKind.frequency leftFreq st.currentTime,
      AudioEvent.setValue rightOsc ParamKind.frequency rightFreq st.currentTime,
      AudioEvent.setValue lg ParamKind.gain 1 st.currentTime,
      AudioEvent.setValue rg ParamKind.gain 1 st.currentTime,
      AudioEvent.connect leftOsc lg Option.none,
      AudioEvent.connect rightOsc rg Option.none,
      AudioEvent.connect lg output (Option.some (0, 0)),
      AudioEvent.connect rg output (Option.some (0, 1)),
      AudioEvent.startNode leftOsc,
      AudioEvent.startNode rightOsc])
  | _, _, _ => (st, [])

/-- The `setupAmplitudeModulation` method (engine.ts lines 278-322): creates
the a-mod LFO at `frequency`, the modulated gain at resting value
`1 - depth/2`, the LFO depth-scaling gain at `depth/2`, wires
LFO → depth gain → modulated gain's gain param, starts the LFO, then
reroutes the main path (binaural gains or basic oscillator) through the
modulated gain.  Returns the modulated gain node as the new chain tail.
(On a missing context the source throws; that branch is unreachable from
`play`, which has already checked the context.) -/
def setupAmplitudeModulation (st : EngineState) (depth frequency : ℚ) :
    EngineState × List AudioEvent × Nat :=
  if st.audioContext.isNone then (st, [], 0) else
  let now := st.currentTime
  let amOsc := st.nextId
  let amGain := st.nextId + 1
  let amDepthGain := st.nextId + 2
  let core : List AudioEvent :=
    [AudioEvent.createNode amOsc NodeKind.oscillator,
     AudioEvent.setValue amOsc ParamKind.frequency frequency now,
     AudioEvent.createNode amGain NodeKind.gain,
     AudioEvent.setValue amGain ParamKind.gain (1 - depth / 2) now,
     AudioEvent.createNode amDepthGain NodeKind.gain,
     AudioEvent.setValue amDepthGain ParamKind.gain (depth / 2) now,
     AudioEvent.connect amOsc amDepthGain Option.none,
     AudioEvent.connectToParam amDepthGain amGain ParamKind.gain,
     AudioEvent.startNode amOsc]
  let reroute : List AudioEvent :=
    match st.leftGain, st.rightGain, st.leftChannelDestination, st.rightChannelDestination with
    | Option.some lg, Option.some rg, Option.some lcd, Option.some rcd =>
      [AudioEvent.disconnect lg,
       AudioEvent.disconnect rg,
       AudioEvent.connect lg amGain Option.none,
       AudioEvent.connect rg amGain Option.none,
       AudioEvent.connect amGain lcd (Option.some (0, 0)),
       AudioEvent.connect amGain rcd (Option.some (0, 1))]
    | _, _, _, _ =>
      match st.oscillator, st.mainOutputDestination with
      | Option.some osc, Option.some out =>
        [AudioEvent.disconnect osc,
         AudioEvent.connect osc amGain Option.none,
         AudioEvent.connect amGain out Option.none]
      | _, _ => []
  ({ st with
      aModOscillator := Option.some amOsc
      aModGain := Option.some amGain
      aModDepthGain := Option.some amDepthGain
      nextId := st.nextId + 3 },
   core ++ reroute, amGain)

/-- The `setupStereoPanning` method (engine.ts lines 332-369): creates the
panner (centered), the pan LFO at `frequency`, the depth-scaling gain at
`depth`, wires LFO → depth gain → pan param, starts the LFO, splices the
panner after `inputNode`, and connects the panner to the recorded
destination(s).  Returns the panner as the new chain tail. -/
def setupStereoPanning (st : EngineState) (depth frequency : ℚ) (inputNode : Nat) :
    EngineState × List AudioEvent × Nat :=
  if st.audioContext.isNone then (st, [], 0) else
  let now := st.currentTime
  let panner := st.nextId
  let lfo := st.nextId + 1
  let sDepthGain := st.nextId + 2
  let core : List AudioEvent :=
    [AudioEvent.createNode panner NodeKind.stereoPanner,
     AudioEvent.setValue panner ParamKind.pan 0 now,
     AudioEvent.createNode lfo NodeKind.oscillator,
     AudioEvent.setValue lfo ParamKind.frequency frequency now,
     AudioEvent.createNode sDepthGain NodeKind.gain,
     AudioEvent.setValue sDepthGain ParamKind.gain depth now,
     AudioEvent.connect lfo sDepthGain Option.none,
     AudioEvent.connectToParam sDepthGain panner ParamKind.pan,
     AudioEvent.startNode lfo,
     AudioEvent.disconnect inputNode,
     AudioEvent.connect inputNode panner Option.none]
  let outs : List AudioEvent :=
    match st.leftChannelDestination, st.rightChannelDestination with
    | Option.some lcd, Option.some rcd =>
      [AudioEvent.connect panner lcd (Option.some (0, 0)),
       AudioEvent.connect panner rcd (Option.some (0, 1))]
    | _, _ =>
      match st.mainOutputDestination with
      | Option.some out => [AudioEvent.connect panner out Option.none]
      | Option.none => []
  ({ st with
      stereoPanner := Option.some panner
      stereoLFO := Option.some lfo
      stereoDepthGain := Option.some sDepthGain
      nextId := st.nextId + 3 },
   core ++ outs, panner)

/-- The `setupFrequencyModulation` method (engine.ts lines 377-406): creates
the f-mod LFO at `modFreq` and a depth-scaling gain at `depth * 10`, wires
LFO → depth gain → the frequency param(s) of the live oscillator(s), and
starts the LFO. -/
def setupFrequencyModulation (st : EngineState) (depth modFreq : ℚ) :
    EngineState × List AudioEvent :=
  if st.audioContext.isNone then (st, []) else
  let now := st.currentTime
  let fmOsc := st.nextId
  let fmDepthGain := st.nextId + 1
  let fModScaledDepth := depth * 10
  let targets : List AudioEvent :=
    match st.leftOscillator, st.rightOscillator with
    | Option.some lo, Option.some ro =>
      [AudioEvent.connectToParam fmDepthGain lo ParamKind.frequency,
       AudioEvent.connectToParam fmDepthGain ro ParamKind.frequency]
    | _, _ =>
      match st.oscillator with
      | Option.some osc => [AudioEvent.connectToParam fmDepthGain osc ParamKind.frequency]
      | Option.none => []
  ({ st with
      fModOscillator := Option.some fmOsc
      fModDepthGain := Option.some fmDepthGain
      nextId := st.nextId + 2 },
   [AudioEvent.createNode fmOsc NodeKind.oscillator,
    AudioEvent.setValue fmOsc ParamKind.frequency modFreq now,
    AudioEvent.createNode fmDepthGain NodeKind.gain,
    AudioEvent.setValue fmDepthGain ParamKind.gain fModScaledDepth now,
    AudioEvent.connect fmOsc fmDepthGain Option.none] ++
   targets ++
   [AudioEvent.startNode fmOsc])

/-- The `setupNoise` method (engine.ts lines 413-430): stops a leftover
noise source if one exists, creates a fresh looping buffer source via the
`NoiseGenerator` factory, sets the noise gain to `level`, connects
source → noise gain and starts the source. -/
def setupNoise (st : EngineState) (type : NoiseType) (level : ℚ) :
    EngineState × List AudioEvent :=
  match st.audioContext, st.noiseGain, decide (type = NoiseType.none) with
  | Option.some _, Option.some ng, false =>
    let stopOld : List AudioEvent :=
      match st.noiseNode with
      | Option.some old => [AudioEvent.stopNode old]
      | Option.none => []
    let src := st.nextId
    ({ st with
        noiseNode := Option.some src
        nextId := st.nextId + 1 },
     stopOld ++
     [AudioEvent.createNode src NodeKind.bufferSource,
      AudioEvent.setValue ng ParamKind.gain level st.currentTime,
      AudioEvent.connect src ng Option.none,
      AudioEvent.startNode src])
  | _, _, _ => (st, [])

/-- Step 1 of the graph build in `play` (engine.ts lines 136-151): build the
source path, binaural pair when `binauralIntensity > 0` and basic oscillator
otherwise, and clear the bookkeeping field(s) of the path not taken. -/
def stageSource (st : EngineState) (s : ModulationSettings) (merger : Nat) :
    EngineState × List AudioEvent :=
  if 0 < s.binauralIntensity then
    let r := setupBinauralBeats st s.carrierFrequency s.beatFrequency s.binauralIntensity merger
    ({ r.1 with mainOutputDestination := Option.none }, r.2)
  else
    let r := setupBasicOscillator st s.carrierFrequency merger
    ({ r.1 with
        leftChannelDestination := Option.none
        rightChannelDestination := Option.none }, r.2)

/-- The `currentOutputNode` selection after the source path is built
(engine.ts lines 154-161): the a-mod gain when it exists, the merger when
the persistent channel gains exist, otherwise the basic oscillator. -/
def tailAfterSource (st : EngineState) (merger : Nat) : Nat :=
  match st.aModGain with
  | Option.some g => g
  | Option.none =>
    if st.leftGain.isSome && st.rightGain.isSome then merger
    else
      match st.oscillator with
      | Option.some o => o
      | Option.none => merger

/-- Step 2 of the graph build (engine.ts lines 165-167): amplitude
modulation when `aModDepth > 0`; returns the (possibly unchanged) chain
tail. -/
def stageAMod (st : EngineState) (s : ModulationSettings) (cur : Nat) :
    EngineState × List AudioEvent × Nat :=
  if 0 < s.aModDepth then setupAmplitudeModulation st s.aModDepth s.beatFrequency
  else (st, [], cur)

/-- Step 3 of the graph build (engine.ts lines 170-172): stereo panning when
`stereoDepth > 0`. -/
def stageStereo (st : EngineState) (s : ModulationSettings) (cur : Nat) :
    EngineState × List AudioEvent × Nat :=
  if 0 < s.stereoDepth then setupStereoPanning st s.stereoDepth s.beatFrequency cur
  else (st, [], cur)

/-- The tail-reconnection conditionals after the spliced stages
(engine.ts lines 175-186). -/
def reconnectTail (st : EngineState) (s : ModulationSettings) (cur merger : Nat) :
    List AudioEvent :=
  if cur ≠ merger ∧ ¬(0 < s.binauralIntensity) then
    match st.mainOutputDestination with
    | Option.some out => [AudioEvent.connect cur out Option.none]
    | Option.none => []
  else
    match st.aModGain with
    | Option.some ag =>
      if cur ≠ ag ∧ 0 < s.binauralIntensity then
        match st.leftChannelDestination, st.rightChannelDestination with
        | Option.some lcd, Option.some rcd =>
          [AudioEvent.connect cur lcd (Option.some (0, 0)),
           AudioEvent.connect cur rcd (Option.some (0, 1))]
        | _, _ => []
      else []
    | Option.none => []

/-- Step 4 of the graph build (engine.ts lines 190-192): frequency
modulation when `fModDepth > 0`. -/
def stageFMod (st : EngineState) (s : ModulationSettings) :
    EngineState × List AudioEvent :=
  if 0 < s.fModDepth then setupFrequencyModulation st s.fModDepth s.beatFrequency
  else (st, [])

/-- Step 5 of the graph build (engine.ts lines 195-197): background noise
when `noiseType !== "none" && noiseLevel > 0`. -/
def stageNoise (st : EngineState) (s : ModulationSettings) :
    EngineState × List AudioEvent :=
  if s.noiseType ≠ NoiseType.none ∧ 0 < s.noiseLevel then
    setupNoise st s.noiseType s.noiseLevel
  else (st, [])

/-- Build steps 1-4 of the graph build (engine.ts lines 136-192): source
path, amplitude modulation, stereo panning, the tail-reconnection
conditionals and frequency modulation, chained in source order. -/
def graphChain (st : EngineState) (s : ModulationSettings) (merger : Nat) :
    EngineState × List AudioEvent :=
  let srcStep := stageSource st s merger
  let stB := srcStep.1
  let cur1 := tailAfterSource stB merger
  let aStep := stageAMod stB s cur1
  let stC := aStep.1
  let sStep := stageStereo stC s aStep.2.2
  let stD := sStep.1
  let reconnect := reconnectTail stD s sStep.2.2 merger
  let fStep := stageFMod stD s
  (fStep.1, srcStep.2 ++ aStep.2.1 ++ sStep.2.1 ++ reconnect ++ fStep.2)

/-- The graph-construction body of `play` (engine.ts lines 122-199),
starting after the initialization check and the conditional `stop`:
store the settings snapshot, apply master/mix/noise gain levels, create the
merger, run build steps 1-4 (`graphChain`), create noise (step 5), and mark
playing.  `mg`, `cg`, `ng` are the master, carrier and noise gain
identifiers established by the guard in `play`. -/
def playBody (st : EngineState) (s : ModulationSettings) (mg cg ng : Nat) :
    EngineState × List AudioEvent :=
  let now := st.currentTime
  let stA := { st with currentSettings := Option.some s }
  let levels : List AudioEvent :=
    [AudioEvent.setValue mg ParamKind.gain s.volume now,
     AudioEvent.setValue cg ParamKind.gain s.mixLevel now,
     AudioEvent.setValue ng ParamKind.gain s.noiseLevel now]
  let merger := stA.nextId
  let mergerEvents : List AudioEvent :=
    [AudioEvent.createNode merger NodeKind.channelMerger,
     AudioEvent.connect merger cg Option.none]
  let stM := { stA with nextId := stA.nextId + 1 }
  let chain := graphChain stM s merger
  let nStep := stageNoise chain.1 s
  ({ nStep.1 with isPlaying := true },
   levels ++ mergerEvents ++ chain.2 ++ nStep.2)

/-- The `play(settings)` method (engine.ts lines 110-200): self-initialize,
refuse with a reported error when the context or a persistent gain is
missing, stop current playback when already playing, then build the graph
from the settings snapshot. -/
def play (st : EngineState) (s : ModulationSettings) : EngineState × List AudioEvent :=
  let r0 := initEngine st
  let st0 := r0.1
  let e0 := r0.2
  match st0.audioContext, st0.masterGain, st0.carrierGain, st0.noiseGain with
  | Option.some _, Option.some mg, Option.some cg, Option.some ng =>
    let r1 := if st0.isPlaying then stopEngine st0 else (st0, [])
    let r2 := playBody r1.1 s mg cg ng
    (r2.1, e0 ++ r1.2 ++ r2.2)
  | _, _, _, _ => (st0, e0 ++ [AudioEvent.errorLogged])

/-- The `updateSettings(settings)` method (engine.ts lines 503-569): no-op
unless playing with a context and stored settings; restart via `play` on the
merged snapshot when the delta is structural; otherwise ramp the eligible
parameters whose values actually changed and store the merged snapshot. -/
def updateSettings (st : EngineState) (d : SettingsDelta) : EngineState × List AudioEvent :=
  match decide st.isPlaying, st.currentSettings, st.audioContext with
  | true, Option.some cs, Option.some _ =>
    let ns := mergeSettings cs d
    if requiresRestart cs d then play st ns
    else
      let t := st.currentTime + RAMP_TIME
      let e1 : List AudioEvent :=
        match d.volume, st.masterGain with
        | Option.some v, Option.some m =>
          if v ≠ cs.volume then [AudioEvent.linearRamp m ParamKind.gain v t] else []
        | _, _ => []
      let e2 : List AudioEvent :=
        match d.mixLevel, st.carrierGain with
        | Option.some v, Option.some c =>
          if v ≠ cs.mixLevel then [AudioEvent.linearRamp c ParamKind.gain v t] else []
        | _, _ => []
      let e3 : List AudioEvent :=
        match d.noiseLevel, st.noiseGain with
        | Option.some v, Option.some n =>
          if v ≠ cs.noiseLevel ∧ cs.noiseType ≠ NoiseType.none then
            [AudioEvent.linearRamp n ParamKind.gain v t]
          else []
        | _, _ => []
      let e4 : List AudioEvent :=
        match d.aModDepth, st.aModGain, st.aModDepthGain with
        | Option.some v, Option.some ag, Option.some adg =>
          if v ≠ cs.aModDepth ∧ 0 < cs.aModDepth then
            [AudioEvent.linearRamp ag ParamKind.gain (1 - v / 2) t,
             AudioEvent.linearRamp adg ParamKind.gain (v / 2) t]
          else []
        | _, _, _ => []
      let e5 : List AudioEvent :=
        match d.stereoDepth, st.stereoDepthGain with
        | Option.some v, Option.some sdg =>
          if v ≠ cs.stereoDepth ∧ 0 < cs.stereoDepth then
            [AudioEvent.linearRamp sdg ParamKind.gain v t]
          else []
        | _, _ => []
      let e6 : List AudioEvent :=
        match d.fModDepth, st.fModDepthGain with
        | Option.some v, Option.some fdg =>
          if v ≠ cs.fModDepth ∧ 0 < cs.fModDepth then
            [AudioEvent.linearRamp fdg ParamKind.gain (v * 10) t]
          else []
        | _, _ => []
      ({ st with currentSettings := Option.some ns },
       e1 ++ e2 ++ e3 ++ e4 ++ e5 ++ e6)
  | _, _, _ => (st, [])

/-- The `cleanup()` method (engine.ts lines 595-630): stop playback, close
the context (best-effort), and null every reference including the persistent
gains and the settings snapshot.  Closing the context destroys all of its
nodes and its clock, so the resulting engine state is exactly the
uninitialized one. -/
def cleanup (st : EngineState) : EngineState × List AudioEvent :=
  let r := stopEngine st
  let closeEvents : List AudioEvent :=
    if r.1.audioContext.isSome then [AudioEvent.contextClosed] else []
  (initState, r.2 ++ closeEvents)

/-! Event classifiers and counters used to express "no ramp was issued",
"stop ran exactly once", "a node was created", and so on. -/

/-- Whether an event is a `linearRampToValueAtTime` call. -/
def AudioEvent.isRamp : AudioEvent → Bool
  | AudioEvent.linearRamp _ _ _ _ => true
  | _ => false

/-- Whether an event is a node creation. -/
def AudioEvent.isCreate : AudioEvent → Bool
  | AudioEvent.createNode _ _ => true
  | _ => false

/-- Whether an event is an entry into the engine's `stop()` method. -/
def AudioEvent.isStopMark : AudioEvent → Bool
  | AudioEvent.stopInvoked => true
  | _ => false

/-- Whether an event creates a buffer (noise) source node. -/
def AudioEvent.isBufCreate : AudioEvent → Bool
  | AudioEvent.createNode _ NodeKind.bufferSource => true
  | _ => false

/-- Number of `linearRampToValueAtTime` calls in an event trace. -/
def rampCount (evs : List AudioEvent) : ℕ := evs.countP AudioEvent.isRamp

/-- Number of node creations in an event trace. -/
def createCount (evs : List AudioEvent) : ℕ := evs.countP AudioEvent.isCreate

/-- Number of `stop()` entries in an event trace. -/
def stopMarkCount (evs : List AudioEvent) : ℕ := evs.countP AudioEvent.isStopMark

/-- Number of buffer (noise) source creations in an event trace. -/
def bufCreateCount (evs : List AudioEvent) : ℕ := evs.countP AudioEvent.isBufCreate

theorem rampCount_append (a b : List AudioEvent) :
    rampCount (a ++ b) = rampCount a + rampCount b :=
  List.countP_append _ _ _

theorem createCount_append (a b : List AudioEvent) :
    createCount (a ++ b) = createCount a + createCount b :=
  List.countP_append _ _ _

theorem stopMarkCount_append (a b : List AudioEvent) :
    stopMarkCount (a ++ b) = stopMarkCount a + stopMarkCount b :=
  List.countP_append _ _ _

theorem bufCreateCount_append (a b : List AudioEvent) :
    bufCreateCount (a ++ b) = bufCreateCount a + bufCreateCount b :=
  List.countP_append _ _ _

/-! Preservation lemmas: fields of the engine state that each private
setup routine leaves untouched, in every branch. -/

@[simp] theorem setupBasicOscillator_preserved (st : EngineState) (f : ℚ) (o : Nat) :
    (setupBasicOscillator st f o).1.audioContext = st.audioContext ∧
    (setupBasicOscillator st f o).1.masterGain = st.masterGain ∧
    (setupBasicOscillator st f o).1.carrierGain = st.carrierGain ∧
    (setupBasicOscillator st f o).1.leftGain = st.leftGain ∧
    (setupBasicOscillator st f o).1.rightGain = st.rightGain ∧
    (setupBasicOscillator st f o).1.noiseGain = st.noiseGain ∧
    (setupBasicOscillator st f o).1.isPlaying = st.isPlaying ∧
    (setupBasicOscillator st f o).1.currentSettings = st.currentSettings ∧
    (setupBasicOscillator st f o).1.currentTime = st.currentTime ∧
    (setupBasicOscillator st f o).1.leftOscillator = st.leftOscillator ∧
    (setupBasicOscillator st f o).1.rightOscillator = st.rightOscillator ∧
    (setupBasicOscillator st f o).1.aModGain = st.aModGain ∧
    (setupBasicOscillator st f o).1.aModDepthGain = st.aModDepthGain ∧
    (setupBasicOscillator st f o).1.noiseNode = st.noiseNode := by
  unfold setupBasicOscillator
  split <;> simp

@[simp] theorem setupBinauralBeats_preserved (st : EngineState) (c b i : ℚ) (o : Nat) :
    (setupBinauralBeats st c b i o).1.audioContext = st.audioContext ∧
    (setupBinauralBeats st c b i o).1.masterGain = st.masterGain ∧
    (setupBinauralBeats st c b i o).1.carrierGain = st.carrierGain ∧
    (setupBinauralBeats st c b i o).1.leftGain = st.leftGain ∧
    (setupBinauralBeats st c b i o).1.rightGain = st.rightGain ∧
    (setupBinauralBeats st c b i o).1.noiseGain = st.noiseGain ∧
    (setupBinauralBeats st c b i o).1.isPlaying = st.isPlaying ∧
    (setupBinauralBeats st c b i o).1.currentSettings = st.currentSettings ∧
    (setupBinauralBeats st c b i o).1.currentTime = st.currentTime ∧
    (setupBinauralBeats st c b i o).1.oscillator = st.oscillator ∧
    (setupBinauralBeats st c b i o).1.aModGain = st.aModGain ∧
    (setupBinauralBeats st c b i o).1.aModDepthGain = st.aModDepthGain ∧
    (setupBinauralBeats st c b i o).1.noiseNode = st.noiseNode := by
  unfold setupBinauralBeats
  split <;> simp

@[simp] theorem setupAmplitudeModulation_preserved (st : EngineState) (d f : ℚ) :
    (setupAmplitudeModulation st d f).1.audioContext = st.audioContext ∧
    (setupAmplitudeModulation st d f).1.masterGain = st.masterGain ∧
    (setupAmplitudeModulation st d f).1.carrierGain = st.carrierGain ∧
    (setupAmplitudeModulation st d f).1.leftGain = st.leftGain ∧
    (setupAmplitudeModulation st d f).1.rightGain = st.rightGain ∧
    (setupAmplitudeModulation st d f).1.noiseGain = st.noiseGain ∧
    (setupAmplitudeModulation st d f).1.isPlaying = st.isPlaying ∧
    (setupAmplitudeModulation st d f).1.currentSettings = st.currentSettings ∧
    (setupAmplitudeModulation st d f).1.currentTime = st.currentTime ∧
    (setupAmplitudeModulation st d f).1.oscillator = st.oscillator ∧
    (setupAmplitudeModulation st d f).1.leftOscillator = st.leftOscillator ∧
    (setupAmplitudeModulation st d f).1.rightOscillator = st.rightOscillator ∧
    (setupAmplitudeModulation st d f).1.noiseNode = st.noiseNode := by
  unfold setupAmplitudeModulation
  split <;> simp

@[simp] theorem setupStereoPanning_preserved (st : EngineState) (d f : ℚ) (inp : Nat) :
    (setupStereoPanning st d f inp).1.audioContext = st.audioContext ∧
    (setupStereoPanning st d f inp).1.masterGain = st.masterGain ∧
    (setupStereoPanning st d f inp).1.carrierGain = st.carrierGain ∧
    (setupStereoPanning st d f inp).1.leftGain = st.leftGain ∧
    (setupStereoPanning st d f inp).1.rightGain = st.rightGain ∧
    (setupStereoPanning st d f inp).1.noiseGain = st.noiseGain ∧
    (setupStereoPanning st d f inp).1.isPlaying = st.isPlaying ∧
    (setupStereoPanning st d f inp).1.currentSettings = st.currentSettings ∧
    (setupStereoPanning st d f inp).1.currentTime = st.currentTime ∧
    (setupStereoPanning st d f inp).1.oscillator = st.oscillator ∧
    (setupStereoPanning st d f inp).1.leftOscillator = st.leftOscillator ∧
    (setupStereoPanning st d f inp).1.rightOscillator = st.rightOscillator ∧
    (setupStereoPanning st d f inp).1.aModGain = st.aModGain ∧
    (setupStereoPanning st d f inp).1.aModDepthGain = st.aModDepthGain ∧
    (setupStereoPanning st d f inp).1.noiseNode = st.noiseNode := by
  unfold setupStereoPanning
  split <;> simp

@[simp] theorem setupFrequencyModulation_preserved (st : EngineState) (d f : ℚ) :
    (setupFrequencyModulation st d f).1.audioContext = st.audioContext ∧
    (setupFrequencyModulation st d f).1.masterGain = st.masterGain ∧
    (setupFrequencyModulation st d f).1.carrierGain = st.carrierGain ∧
    (setupFrequencyModulation st d f).1.leftGain = st.leftGain ∧
    (setupFrequencyModulation st d f).1.rightGain = st.rightGain ∧
    (setupFrequencyModulation st d f).1.noiseGain = st.noiseGain ∧
    (setupFrequencyModulation st d f).1.isPlaying = st.isPlaying ∧
    (setupFrequencyModulation st d f).1.currentSettings = st.currentSettings ∧
    (setupFrequencyModulation st d f).1.currentTime = st.currentTime ∧
    (setupFrequencyModulation st d f).1.oscillator = st.oscillator ∧
    (setupFrequencyModulation st d f).1.leftOscillator = st.leftOscillator ∧
    (setupFrequencyModulation st d f).1.rightOscillator = st.rightOscillator ∧
    (setupFrequencyModulation st d f).1.aModGain = st.aModGain ∧
    (setupFrequencyModulation st d f).1.aModDepthGain = st.aModDepthGain ∧
    (setupFrequencyModulation st d f).1.noiseNode = st.noiseNode := by
  unfold setupFrequencyModulation
  split <;> simp

@[simp] theorem setupNoise_preserved (st : EngineState) (t : NoiseType) (l : ℚ) :
    (setupNoise st t l).1.audioContext = st.audioContext ∧
    (setupNoise st t l).1.masterGain = st.masterGain ∧
    (setupNoise st t l).1.carrierGain = st.carrierGain ∧
    (setupNoise st t l).1.leftGain = st.leftGain ∧
    (setupNoise st t l).1.rightGain = st.rightGain ∧
    (setupNoise st t l).1.noiseGain = st.noiseGain ∧
    (setupNoise st t l).1.isPlaying = st.isPlaying ∧
    (setupNoise st t l).1.currentSettings = st.currentSettings ∧
    (setupNoise st t l).1.currentTime = st.currentTime ∧
    (setupNoise st t l).1.oscillator = st.oscillator ∧
    (setupNoise st t l).1.leftOscillator = st.leftOscillator ∧
    (setupNoise st t l).1.rightOscillator = st.rightOscillator ∧
    (setupNoise st t l).1.aModGain = st.aModGain ∧
    (setupNoise st t l).1.aModDepthGain = st.aModDepthGain := by
  unfold setupNoise
  split <;> simp

@[simp] theorem stageSource_preserved (st : EngineState) (s : ModulationSettings) (m : Nat) :
    (stageSource st s m).1.audioContext = st.audioContext ∧
    (stageSource st s m).1.masterGain = st.masterGain ∧
    (stageSource st s m).1.carrierGain = st.carrierGain ∧
    (stageSource st s m).1.leftGain = st.leftGain ∧
    (stageSource st s m).1.rightGain = st.rightGain ∧
    (stageSource st s m).1.noiseGain = st.noiseGain ∧
    (stageSource st s m).1.isPlaying = st.isPlaying ∧
    (stageSource st s m).1.currentSettings = st.currentSettings ∧
    (stageSource st s m).1.currentTime = st.currentTime ∧
    (stageSource st s m).1.aModGain = st.aModGain ∧
    (stageSource st s m).1.aModDepthGain = st.aModDepthGain ∧
    (stageSource st s m).1.noiseNode = st.noiseNode := by
  unfold stageSource
  split <;> simp

@[simp] theorem stageAMod_preserved (st : EngineState) (s : ModulationSettings) (c : Nat) :
    (stageAMod st s c).1.audioContext = st.audioContext ∧
    (stageAMod st s c).1.masterGain = st.masterGain ∧
    (stageAMod st s c).1.carrierGain = st.carrierGain ∧
    (stageAMod st s c).1.leftGain = st.leftGain ∧
    (stageAMod st s c).1.rightGain = st.rightGain ∧
    (stageAMod st s c).1.noiseGain = st.noiseGain ∧
    (stageAMod st s c).1.isPlaying = st.isPlaying ∧
    (stageAMod st s c).1.currentSettings = st.currentSettings ∧
    (stageAMod st s c).1.currentTime = st.currentTime ∧
    (stageAMod st s c).1.oscillator = st.oscillator ∧
    (stageAMod st s c).1.leftOscillator = st.leftOscillator ∧
    (stageAMod st s c).1.rightOscillator = st.rightOscillator ∧
    (stageAMod st s c).1.noiseNode = st.noiseNode := by
  unfold stageAMod
  split <;> simp

@[simp] theorem stageStereo_preserved (st : EngineState) (s : ModulationSettings) (c : Nat) :
    (stageStereo st s c).1.audioContext = st.audioContext ∧
    (stageStereo st s c).1.masterGain = st.masterGain ∧
    (stageStereo st s c).1.carrierGain = st.carrierGain ∧
    (stageStereo st s c).1.leftGain = st.leftGain ∧
    (stageStereo st s c).1.rightGain = st.rightGain ∧
    (stageStereo st s c).1.noiseGain = st.noiseGain ∧
    (stageStereo st s c).1.isPlaying = st.isPlaying ∧
    (stageStereo st s c).1.currentSettings = st.currentSettings ∧
    (stageStereo st s c).1.currentTime = st.currentTime ∧
    (stageStereo st s c).1.oscillator = st.oscillator ∧
    (stageStereo st s c).1.leftOscillator = st.leftOscillator ∧
    (stageStereo st s c).1.rightOscillator = st.rightOscillator ∧
    (stageStereo st s c).1.aModGain = st.aModGain ∧
    (stageStereo st s c).1.aModDepthGain = st.aModDepthGain ∧
    (stageStereo st s c).1.noiseNode = st.noiseNode := by
  unfold stageStereo
  split <;> simp

@[simp] theorem stageFMod_preserved (st : EngineState) (s : ModulationSettings) :
    (stageFMod st s).1.audioContext = st.audioContext ∧
    (stageFMod st s).1.masterGain = st.masterGain ∧
    (stageFMod st s).1.carrierGain = st.carrierGain ∧
    (stageFMod st s).1.leftGain = st.leftGain ∧
    (stageFMod st s).1.rightGain = st.rightGain ∧
    (stageFMod st s).1.noiseGain = st.noiseGain ∧
    (stageFMod st s).1.isPlaying = st.isPlaying ∧
    (stageFMod st s).1.currentSettings = st.currentSettings ∧
    (stageFMod st s).1.currentTime = st.currentTime ∧
    (stageFMod st s).1.oscillator = st.oscillator ∧
    (stageFMod st s).1.leftOscillator = st.leftOscillator ∧
    (stageFMod st s).1.rightOscillator = st.rightOscillator ∧
    (stageFMod st s).1.aModGain = st.aModGain ∧
    (stageFMod st s).1.aModDepthGain = st.aModDepthGain ∧
    (stageFMod st s).1.noiseNode = st.noiseNode := by
  unfold stageFMod
  split <;> simp

@[simp] theorem stageNoise_preserved (st : EngineState) (s : ModulationSettings) :
    (stageNoise st s).1.audioContext = st.audioContext ∧
    (stageNoise st s).1.masterGain = st.masterGain ∧
    (stageNoise st s).1.carrierGain = st.carrierGain ∧
    (stageNoise st s).1.leftGain = st.leftGain ∧
    (stageNoise st s).1.rightGain = st.rightGain ∧
    (stageNoise st s).1.noiseGain = st.noiseGain ∧
    (stageNoise st s).1.isPlaying = st.isPlaying ∧
    (stageNoise st s).1.currentSettings = st.currentSettings ∧
    (stageNoise st s).1.currentTime = st.currentTime ∧
    (stageNoise st s).1.oscillator = st.oscillator ∧
    (stageNoise st s).1.leftOscillator = st.leftOscillator ∧
    (stageNoise st s).1.rightOscillator = st.rightOscillator ∧
    (stageNoise st s).1.aModGain = st.aModGain ∧
    (stageNoise st s).1.aModDepthGain = st.aModDepthGain := by
  unfold stageNoise
  split <;> simp

/-- When the context already exists, `initialize()` is a no-op
(engine.ts line 78). -/
theorem initEngine_of_some (st : EngineState) (h : st.audioContext.isSome) :
    initEngine st = (st, []) := by
  unfold initEngine
  simp [h]

/-- Fields of the engine state that `stop()` leaves untouched in every
branch: the persistent gains, the context, the settings snapshot, the clock
and the identifier counter. -/
@[simp] theorem stopWith_preserved (fails : StopOp → Bool) (st : EngineState) :
    (stopWith fails st).1.audioContext = st.audioContext ∧
    (stopWith fails st).1.masterGain = st.masterGain ∧
    (stopWith fails st).1.carrierGain = st.carrierGain ∧
    (stopWith fails st).1.leftGain = st.leftGain ∧
    (stopWith fails st).1.rightGain = st.rightGain ∧
    (stopWith fails st).1.noiseGain = st.noiseGain ∧
    (stopWith fails st).1.currentSettings = st.currentSettings ∧
    (stopWith fails st).1.currentTime = st.currentTime ∧
    (stopWith fails st).1.nextId = st.nextId := by
  unfold stopWith
  split <;> simp

/-- After `stop()` on a playing engine with a live context, every transient
node reference and routing-destination field is null and the engine is not
playing, whatever the failure oracle says. -/
theorem stopWith_clears (fails : StopOp → Bool) (st : EngineState)
    (hp : st.isPlaying = true) (hc : st.audioContext.isSome) :
    (stopWith fails st).1.oscillator = Option.none ∧
    (stopWith fails st).1.leftOscillator = Option.none ∧
    (stopWith fails st).1.rightOscillator = Option.none ∧
    (stopWith fails st).1.aModOscillator = Option.none ∧
    (stopWith fails st).1.aModGain = Option.none ∧
    (stopWith fails st).1.aModDepthGain = Option.none ∧
    (stopWith fails st).1.stereoPanner = Option.none ∧
    (stopWith fails st).1.stereoLFO = Option.none ∧
    (stopWith fails st).1.stereoDepthGain = Option.none ∧
    (stopWith fails st).1.fModOscillator = Option.none ∧
    (stopWith fails st).1.fModDepthGain = Option.none ∧
    (stopWith fails st).1.noiseNode = Option.none ∧
    (stopWith fails st).1.leftChannelDestination = Option.none ∧
    (stopWith fails st).1.rightChannelDestination = Option.none ∧
    (stopWith fails st).1.mainOutputDestination = Option.none ∧
    (stopWith fails st).1.isPlaying = false := by
  obtain ⟨a, ha⟩ := Option.isSome_iff_exists.mp hc
  unfold stopWith
  simp [hp, ha]

/-! Counting lemmas: no component of `play` ever issues a ramp, only the
entry of `stop()` emits the stop marker, and the try-block operations of
`stop()` emit only node stop/disconnect events. -/

theorem runOps_counts (fails : StopOp → Bool) (ops : List StopOp) :
    rampCount (runOps fails ops).1 = 0 ∧
    createCount (runOps fails ops).1 = 0 ∧
    stopMarkCount (runOps fails ops).1 = 0 ∧
    bufCreateCount (runOps fails ops).1 = 0 := by
  induction ops with
  | nil => simp [runOps, rampCount, createCount, stopMarkCount, bufCreateCount]
  | cons op rest ih =>
    by_cases h : fails op = true
    · simp [runOps, h, rampCount, createCount, stopMarkCount, bufCreateCount]
    · cases op <;>
        simp_all [runOps, h, rampCount, createCount, stopMarkCount, bufCreateCount,
          StopOp.event, AudioEvent.isRamp, AudioEvent.isCreate,
          AudioEvent.isStopMark, AudioEvent.isBufCreate]

theorem stopWith_counts (fails : StopOp → Bool) (st : EngineState) :
    rampCount (stopWith fails st).2 = 0 ∧
    createCount (stopWith fails st).2 = 0 ∧
    stopMarkCount (stopWith fails st).2 = 1 ∧
    bufCreateCount (stopWith fails st).2 = 0 := by
  have h := runOps_counts fails (stopOps st)
  unfold stopWith
  split
  · simp [rampCount, createCount, stopMarkCount, bufCreateCount,
      AudioEvent.isRamp, AudioEvent.isCreate, AudioEvent.isStopMark,
      AudioEvent.isBufCreate]
  · by_cases hf : (runOps fails (stopOps st)).2 = true <;>
      simp_all [rampCount, createCount, stopMarkCount, bufCreateCount,
        List.countP_append, List.countP_cons,
        AudioEvent.isRamp, AudioEvent.isCreate, AudioEvent.isStopMark,
        AudioEvent.isBufCreate]

theorem initEngine_counts (st : EngineState) :
    rampCount (initEngine st).2 = 0 ∧
    stopMarkCount (initEngine st).2 = 0 ∧
    bufCreateCount (initEngine st).2 = 0 := by
  unfold initEngine
  split <;>
    simp [rampCount, stopMarkCount, bufCreateCount,
      AudioEvent.isRamp, AudioEvent.isStopMark, AudioEvent.isBufCreate]

theorem setupBasicOscillator_counts (st : EngineState) (f : ℚ) (o : Nat) :
    rampCount (setupBasicOscillator st f o).2 = 0 ∧
    stopMarkCount (setupBasicOscillator st f o).2 = 0 ∧
    bufCreateCount (setupBasicOscillator st f o).2 = 0 := by
  unfold setupBasicOscillator
  repeat' split
  all_goals
    simp [rampCount, stopMarkCount, bufCreateCount, List.countP_cons, List.countP_nil,
      AudioEvent.isRamp, AudioEvent.isStopMark, AudioEvent.isBufCreate]

theorem setupBinauralBeats_counts (st : EngineState) (c b i : ℚ) (o : Nat) :
    rampCount (setupBinauralBeats st c b i o).2 = 0 ∧
    stopMarkCount (setupBinauralBeats st c b i o).2 = 0 ∧
    bufCreateCount (setupBinauralBeats st c b i o).2 = 0 := by
  unfold setupBinauralBeats
  repeat' split
  all_goals
    simp [rampCount, stopMarkCount, bufCreateCount, List.countP_cons, List.countP_nil,
      AudioEvent.isRamp, AudioEvent.isStopMark, AudioEvent.isBufCreate]

theorem setupAmplitudeModulation_counts (st : EngineState) (d f : ℚ) :
    rampCount (setupAmplitudeModulation st d f).2.1 = 0 ∧
    stopMarkCount (setupAmplitudeModulation st d f).2.1 = 0 ∧
    bufCreateCount (setupAmplitudeModulation st d f).2.1 = 0 := by
  unfold setupAmplitudeModulation
  repeat' split
  all_goals
    simp [rampCount, stopMarkCount, bufCreateCount, List.countP_append,
      List.countP_cons, List.countP_nil,
      AudioEvent.isRamp, AudioEvent.isStopMark, AudioEvent.isBufCreate]

theorem setupStereoPanning_counts (st : EngineState) (d f : ℚ) (inp : Nat) :
    rampCount (setupStereoPanning st d f inp).2.1 = 0 ∧
    stopMarkCount (setupStereoPanning st d f inp).2.1 = 0 ∧
    bufCreateCount (setupStereoPanning st d f inp).2.1 = 0 := by
  unfold setupStereoPanning
  repeat' split
  all_goals
    simp [rampCount, stopMarkCount, bufCreateCount, List.countP_append,
      List.countP_cons, List.countP_nil,
      AudioEvent.isRamp, AudioEvent.isStopMark, AudioEvent.isBufCreate]

theorem setupFrequencyModulation_counts (st : EngineState) (d f : ℚ) :
    rampCount (setupFrequencyModulation st d f).2 = 0 ∧
    stopMarkCount (setupFrequencyModulation st d f).2 = 0 ∧
    bufCreateCount (setupFrequencyModulation st d f).2 = 0 := by
  unfold setupFrequencyModulation
  repeat' split
  all_goals
    simp [rampCount, stopMarkCount, bufCreateCount, List.countP_append,
      List.countP_cons, List.countP_nil,
      AudioEvent.isRamp, AudioEvent.isStopMark, AudioEvent.isBufCreate]

theorem setupNoise_counts (st : EngineState) (t : NoiseType) (l : ℚ) :
    rampCount (setupNoise st t l).2 = 0 ∧
    stopMarkCount (setupNoise st t l).2 = 0 := by
  unfold setupNoise
  repeat' split
  all_goals
    simp [rampCount, stopMarkCount, List.countP_append, List.countP_cons,
      List.countP_nil, AudioEvent.isRamp, AudioEvent.isStopMark]

/-- The success branch of `setupNoise` (engine.ts lines 413-430): under a
live context and noise gain and a non-"none" noise type, exactly one buffer
source is created; it is started and recorded in `noiseNode`. -/
theorem setupNoise_success (st : EngineState) (t : NoiseType) (l : ℚ) (a ng : Nat)
    (ha : st.audioContext = Option.some a) (hg : st.noiseGain = Option.some ng)
    (ht : t ≠ NoiseType.none) :
    (setupNoise st t l).1.noiseNode = Option.some st.nextId ∧
    AudioEvent.createNode st.nextId NodeKind.bufferSource ∈ (setupNoise st t l).2 ∧
    AudioEvent.startNode st.nextId ∈ (setupNoise st t l).2 ∧
    bufCreateCount (setupNoise st t l).2 = 1 := by
  unfold setupNoise
  cases hnn : st.noiseNode <;>
    simp [ha, hg, ht, hnn, bufCreateCount, List.countP_append, List.countP_cons,
      List.countP_nil, AudioEvent.isBufCreate]

theorem stageSource_counts (st : EngineState) (s : ModulationSettings) (m : Nat) :
    rampCount (stageSource st s m).2 = 0 ∧
    stopMarkCount (stageSource st s m).2 = 0 ∧
    bufCreateCount (stageSource st s m).2 = 0 := by
  unfold stageSource
  split
  · exact setupBinauralBeats_counts st s.carrierFrequency s.beatFrequency s.binauralIntensity m
  · exact setupBasicOscillator_counts st s.carrierFrequency m

theorem stageAMod_counts (st : EngineState) (s : ModulationSettings) (c : Nat) :
    rampCount (stageAMod st s c).2.1 = 0 ∧
    stopMarkCount (stageAMod st s c).2.1 = 0 ∧
    bufCreateCount (stageAMod st s c).2.1 = 0 := by
  unfold stageAMod
  split
  · exact setupAmplitudeModulation_counts st s.aModDepth s.beatFrequency
  · simp [rampCount, stopMarkCount, bufCreateCount]

theorem stageStereo_counts (st : EngineState) (s : ModulationSettings) (c : Nat) :
    rampCount (stageStereo st s c).2.1 = 0 ∧
    stopMarkCount (stageStereo st s c).2.1 = 0 ∧
    bufCreateCount (stageStereo st s c).2.1 = 0 := by
  unfold stageStereo
  split
  · exact setupStereoPanning_counts st s.stereoDepth s.beatFrequency c
  · simp [rampCount, stopMarkCount, bufCreateCount]

theorem stageFMod_counts (st : EngineState) (s : ModulationSettings) :
    rampCount (stageFMod st s).2 = 0 ∧
    stopMarkCount (stageFMod st s).2 = 0 ∧
    bufCreateCount (stageFMod st s).2 = 0 := by
  unfold stageFMod
  split
  · exact setupFrequencyModulation_counts st s.fModDepth s.beatFrequency
  · simp [rampCount, stopMarkCount, bufCreateCount]

theorem stageNoise_counts (st : EngineState) (s : ModulationSettings) :
    rampCount (stageNoise st s).2 = 0 ∧
    stopMarkCount (stageNoise st s).2 = 0 := by
  unfold stageNoise
  split
  · exact setupNoise_counts st s.noiseType s.noiseLevel
  · simp [rampCount, stopMarkCount]

theorem reconnectTail_counts (st : EngineState) (s : ModulationSettings) (c m : Nat) :
    rampCount (reconnectTail st s c m) = 0 ∧
    stopMarkCount (reconnectTail st s c m) = 0 ∧
    bufCreateCount (reconnectTail st s c m) = 0 := by
  unfold reconnectTail
  repeat' split
  all_goals
    simp [rampCount, stopMarkCount, bufCreateCount, List.countP_cons, List.countP_nil,
      AudioEvent.isRamp, AudioEvent.isStopMark, AudioEvent.isBufCreate]

/-- Fields of the engine state untouched by build steps 1-4 in every
branch. -/
@[simp] theorem graphChain_preserved (st : EngineState) (s : ModulationSettings) (m : Nat) :
    (graphChain st s m).1.audioContext = st.audioContext ∧
    (graphChain st s m).1.masterGain = st.masterGain ∧
    (graphChain st s m).1.carrierGain = st.carrierGain ∧
    (graphChain st s m).1.leftGain = st.leftGain ∧
    (graphChain st s m).1.rightGain = st.rightGain ∧
    (graphChain st s m).1.noiseGain = st.noiseGain ∧
    (graphChain st s m).1.isPlaying = st.isPlaying ∧
    (graphChain st s m).1.currentSettings = st.currentSettings ∧
    (graphChain st s m).1.currentTime = st.currentTime ∧
    (graphChain st s m).1.noiseNode = st.noiseNode := by
  unfold graphChain
  simp

/-- Build steps 1-4 issue no ramp, no `stop()` entry and no buffer-source
creation. -/
theorem graphChain_counts (st : EngineState) (s : ModulationSettings) (m : Nat) :
    rampCount (graphChain st s m).2 = 0 ∧
    stopMarkCount (graphChain st s m).2 = 0 ∧
    bufCreateCount (graphChain st s m).2 = 0 := by
  unfold graphChain
  simp only [rampCount_append, stopMarkCount_append, bufCreateCount_append]
  refine ⟨?_, ?_, ?_⟩
  · rw [(stageSource_counts _ _ _).1, (stageAMod_counts _ _ _).1,
      (stageStereo_counts _ _ _).1, (stageFMod_counts _ _).1,
      (reconnectTail_counts _ _ _ _).1]
  · rw [(stageSource_counts _ _ _).2.1, (stageAMod_counts _ _ _).2.1,
      (stageStereo_counts _ _ _).2.1, (stageFMod_counts _ _).2.1,
      (reconnectTail_counts _ _ _ _).2.1]
  · rw [(stageSource_counts _ _ _).2.2, (stageAMod_counts _ _ _).2.2,
      (stageStereo_counts _ _ _).2.2, (stageFMod_counts _ _).2.2,
      (reconnectTail_counts _ _ _ _).2.2]

/-- The graph build issues no ramp. -/
theorem playBody_rampCount (st : EngineState) (s : ModulationSettings) (mg cg ng : Nat) :
    rampCount (playBody st s mg cg ng).2 = 0 := by
  unfold playBody
  simp only [rampCount_append]
  rw [(graphChain_counts _ _ _).1, (stageNoise_counts _ _).1]
  simp only [rampCount, List.countP_cons, List.countP_nil, AudioEvent.isRamp]
  rfl

/-- The graph build never re-enters the public `stop()` method. -/
theorem playBody_stopMarkCount (st : EngineState) (s : ModulationSettings) (mg cg ng : Nat) :
    stopMarkCount (playBody st s mg cg ng).2 = 0 := by
  unfold playBody
  simp only [stopMarkCount_append]
  rw [(graphChain_counts _ _ _).2.1, (stageNoise_counts _ _).2]
  simp only [stopMarkCount, List.countP_cons, List.countP_nil, AudioEvent.isStopMark]
  rfl

/-- The graph build always creates at least one node (the channel
merger). -/
theorem playBody_createPos (st : EngineState) (s : ModulationSettings) (mg cg ng : Nat) :
    0 < createCount (playBody st s mg cg ng).2 := by
  unfold playBody
  rw [createCount, List.countP_pos_iff]
  refine ⟨AudioEvent.createNode st.nextId NodeKind.channelMerger, ?_, rfl⟩
  simp

/-- State facts about the graph build: the persistent gains, context and
clock are untouched, the settings snapshot is stored, and the engine is
marked playing. -/
theorem playBody_state (st : EngineState) (s : ModulationSettings) (mg cg ng : Nat) :
    (playBody st s mg cg ng).1.audioContext = st.audioContext ∧
    (playBody st s mg cg ng).1.masterGain = st.masterGain ∧
    (playBody st s mg cg ng).1.carrierGain = st.carrierGain ∧
    (playBody st s mg cg ng).1.leftGain = st.leftGain ∧
    (playBody st s mg cg ng).1.rightGain = st.rightGain ∧
    (playBody st s mg cg ng).1.noiseGain = st.noiseGain ∧
    (playBody st s mg cg ng).1.currentSettings = Option.some s ∧
    (playBody st s mg cg ng).1.isPlaying = true ∧
    (playBody st s mg cg ng).1.currentTime = st.currentTime := by
  unfold playBody
  simp

/-- On a playing engine with its context and persistent gains live, `play`
is the trace of `stop()` followed by the graph build on the stopped state
(engine.ts lines 111-120). -/
theorem play_eq_playing (st : EngineState) (s : ModulationSettings) (a mg cg ng : Nat)
    (ha : st.audioContext = Option.some a) (hm : st.masterGain = Option.some mg)
    (hc : st.carrierGain = Option.some cg) (hn : st.noiseGain = Option.some ng)
    (hp : st.isPlaying = true) :
    play st s =
      ((playBody (stopEngine st).1 s mg cg ng).1,
       (stopEngine st).2 ++ (playBody (stopEngine st).1 s mg cg ng).2) := by
  unfold play
  rw [initEngine_of_some st (by simp [ha])]
  simp [ha, hm, hc, hn, hp]

/-- On a non-playing engine with its context and persistent gains live,
`play` is exactly the graph build. -/
theorem play_eq_stopped (st : EngineState) (s : ModulationSettings) (a mg cg ng : Nat)
    (ha : st.audioContext = Option.some a) (hm : st.masterGain = Option.some mg)
    (hc : st.carrierGain = Option.some cg) (hn : st.noiseGain = Option.some ng)
    (hp : st.isPlaying = false) :
    play st s = playBody st s mg cg ng := by
  unfold play
  rw [initEngine_of_some st (by simp [ha])]
  simp [ha, hm, hc, hn, hp]

/-- No call path of `play` ever issues a `linearRampToValueAtTime`: the
whole build uses immediate `setValueAtTime` scheduling only. -/
theorem play_rampCount (st : EngineState) (s : ModulationSettings) :
    rampCount (play st s).2 = 0 := by
  unfold play
  dsimp only
  split
  · simp only [rampCount_append]
    rw [(initEngine_counts st).1, playBody_rampCount]
    have h : rampCount
        (if (initEngine st).1.isPlaying = true
          then stopEngine (initEngine st).1
          else ((initEngine st).1, [])).2 = 0 := by
      split
      · exact (stopWith_counts _ _).1
      · rfl
    omega
  · simp only [rampCount_append]
    rw [(initEngine_counts st).1]
    simp [rampCount, List.countP_cons, List.countP_nil, AudioEvent.isRamp]

/-- State facts after `play` on an engine with live context and persistent
gains: settings stored, playing, persistent nodes and clock untouched. -/
theorem play_state (st : EngineState) (s : ModulationSettings) (a mg cg ng : Nat)
    (ha : st.audioContext = Option.some a) (hm : st.masterGain = Option.some mg)
    (hc : st.carrierGain = Option.some cg) (hn : st.noiseGain = Option.some ng) :
    (play st s).1.currentSettings = Option.some s ∧
    (play st s).1.isPlaying = true ∧
    (play st s).1.audioContext = Option.some a ∧
    (play st s).1.masterGain = Option.some mg ∧
    (play st s).1.carrierGain = Option.some cg ∧
    (play st s).1.noiseGain = Option.some ng ∧
    (play st s).1.leftGain = st.leftGain ∧
    (play st s).1.rightGain = st.rightGain ∧
    (play st s).1.currentTime = st.currentTime := by
  by_cases hp : st.isPlaying = true
  · rw [play_eq_playing st s a mg cg ng ha hm hc hn hp]
    have hb := playBody_state (stopEngine st).1 s mg cg ng
    have hs := stopWith_preserved (fun _ => false) st
    simp only [stopEngine] at *
    refine ⟨hb.2.2.2.2.2.2.1, hb.2.2.2.2.2.2.2.1, ?_, ?_, ?_, ?_, ?_, ?_, ?_⟩ <;>
      simp_all
  · rw [play_eq_stopped st s a mg cg ng ha hm hc hn (by simpa using hp)]
    have hb := playBody_state st s mg cg ng
    simp_all

theorem changedQ_iff (o : Option ℚ) (x : ℚ) :
    changedQ o x = true ↔ ∃ v, o = Option.some v ∧ v ≠ x := by
  cases o <;> simp [changedQ]

theorem changedNoise_iff (o : Option NoiseType) (x : NoiseType) :
    changedNoise o x = true ↔ ∃ t, o = Option.some t ∧ t ≠ x := by
  cases o <;> simp [changedNoise]

theorem crossesZero_iff (o : Option ℚ) (x : ℚ) :
    crossesZero o x = true ↔ ∃ v, o = Option.some v ∧ ¬((v = 0) ↔ (x = 0)) := by
  cases o <;> simp [crossesZero, ne_eq, eq_iff_iff]

/-- The code's `requiresRestart` test agrees with the spec's description of
a structural delta, field for field. -/
theorem requiresRestart_iff (old : ModulationSettings) (d : SettingsDelta) :
    requiresRestart old d = true ↔ StructuralSpec old d := by
  unfold requiresRestart StructuralSpec
  simp only [Bool.or_eq_true, changedQ_iff, changedNoise_iff, crossesZero_iff, or_assoc]

/-- On a structural delta, `updateSettings` is exactly `play` on the merged
snapshot (engine.ts lines 525-529). -/
theorem updateSettings_restart (st : EngineState) (cs : ModulationSettings) (a : Nat)
    (d : SettingsDelta) (hp : st.isPlaying = true)
    (hcs : st.currentSettings = Option.some cs) (ha : st.audioContext = Option.some a)
    (hr : requiresRestart cs d = true) :
    updateSettings st d = play st (mergeSettings cs d) := by
  unfold updateSettings
  simp [hp, hcs, ha, hr]

/-! Concrete sample data used to exhibit satisfiable hypotheses. -/

/-- A representative settings snapshot (the shape used by the repository's
test suite: binaural with amplitude modulation and white noise). -/
def sampleSettings : ModulationSettings where
  carrierFrequency := 440
  beatFrequency := 10
  volume := 4 / 5
  aModDepth := 1 / 2
  binauralIntensity := 1
  stereoDepth := 0
  fModDepth := 0
  noiseType := NoiseType.white
  noiseLevel := 1 / 10
  mixLevel := 7 / 10

/-- A freshly initialized engine. -/
def readyState : EngineState := (initEngine initState).1

/-- A playing engine: fresh engine after `play(sampleSettings)`. -/
def playingState : EngineState := (play readyState sampleSettings).1

/-- The delta `{carrierFrequency: 880}`. -/
def deltaCarrier880 : SettingsDelta := { carrierFrequency := Option.some 880 }

/-- C1: for every playing engine and every partial settings delta,
`updateSettings` classifies the delta as structural exactly when it changes
`carrierFrequency`, `beatFrequency`, `binauralIntensity` or `noiseType`, or
changes a modulation depth across the zero boundary; on a structural trigger
it merges the delta into the current settings and calls `play` with the full
merged snapshot, and no smooth ramp is applied in that call. -/
theorem c1_structural_classification
    (st : EngineState) (cs : ModulationSettings) (a mg cg ng : Nat) (d : SettingsDelta)
    (hp : st.isPlaying = true) (hcs : st.currentSettings = Option.some cs)
    (ha : st.audioContext = Option.some a) (hm : st.masterGain = Option.some mg)
    (hc : st.carrierGain = Option.some cg) (hn : st.noiseGain = Option.some ng) :
    (requiresRestart cs d = true ↔ StructuralSpec cs d) ∧
    (requiresRestart cs d = true →
      updateSettings st d = play st (mergeSettings cs d) ∧
      (updateSettings st d).1.currentSettings = Option.some (mergeSettings cs d) ∧
      rampCount (updateSettings st d).2 = 0) := by
  refine ⟨requiresRestart_iff cs d, fun hr => ?_⟩
  have he := updateSettings_restart st cs a d hp hcs ha hr
  refine ⟨he, ?_, ?_⟩
  · rw [he]
    exact (play_state st (mergeSettings cs d) a mg cg ng ha hm hc hn).1
  · rw [he]
    exact play_rampCount st (mergeSettings cs d)

unseal Rat.mul Rat.inv Rat.add Rat.sub in
/-- Witness for C1 at a concrete playing engine and the delta
`{carrierFrequency: 880}`. -/
theorem c1_witness :
    playingState.isPlaying = true ∧
    playingState.currentSettings = Option.some sampleSettings ∧
    playingState.audioContext = Option.some 0 ∧
    playingState.masterGain = Option.some 1 ∧
    playingState.carrierGain = Option.some 2 ∧
    playingState.noiseGain = Option.some 5 ∧
    ((requiresRestart sampleSettings deltaCarrier880 = true ↔
        StructuralSpec sampleSettings deltaCarrier880) ∧
     (requiresRestart sampleSettings deltaCarrier880 = true →
       updateSettings playingState deltaCarrier880 =
         play playingState (mergeSettings sampleSettings deltaCarrier880) ∧
       (updateSettings playingState deltaCarrier880).1.currentSettings =
         Option.some (mergeSettings sampleSettings deltaCarrier880) ∧
       rampCount (updateSettings playingState deltaCarrier880).2 = 0)) :=
  ⟨by decide, by decide, by decide, by decide, by decide, by decide,
   c1_structural_classification playingState sampleSettings 0 1 2 5 deltaCarrier880
     (by decide) (by decide) (by decide) (by decide) (by decide) (by decide)⟩

/-- The delta `{volume: v}`. -/
def onlyVolume (v : ℚ) : SettingsDelta := { volume := Option.some v }

/-- The delta `{noiseLevel: x}`. -/
def onlyNoiseLevel (x : ℚ) : SettingsDelta := { noiseLevel := Option.some x }

/-- The delta `{aModDepth: d}`. -/
def onlyAModDepth (d : ℚ) : SettingsDelta := { aModDepth := Option.some d }

/-- C5 (amended: `v` must differ from the current volume, since the code
compares `settings.volume !== oldSettings.volume` before ramping): on a
playing engine, `updateSettings({volume: v})` with `v` different from the
current volume emits exactly one linear ramp, on the master gain, to `v`,
and changes nothing but the stored settings — no stop, no node creation. -/
theorem c5_volume_smooth_ramp
    (st : EngineState) (cs : ModulationSettings) (a mg : Nat) (v : ℚ)
    (hp : st.isPlaying = true) (hcs : st.currentSettings = Option.some cs)
    (ha : st.audioContext = Option.some a) (hm : st.masterGain = Option.some mg)
    (hv : v ≠ cs.volume) :
    (updateSettings st (onlyVolume v)).2 =
      [AudioEvent.linearRamp mg ParamKind.gain v (st.currentTime + RAMP_TIME)] ∧
    (updateSettings st (onlyVolume v)).1 =
      { st with currentSettings := Option.some { cs with volume := v } } ∧
    stopMarkCount (updateSettings st (onlyVolume v)).2 = 0 ∧
    createCount (updateSettings st (onlyVolume v)).2 = 0 := by
  unfold updateSettings
  simp [hp, hcs, ha, hm, hv, onlyVolume, requiresRestart, changedQ, changedNoise,
    crossesZero, mergeSettings, stopMarkCount, createCount, List.countP_cons,
    List.countP_nil, AudioEvent.isStopMark, AudioEvent.isCreate]

unseal Rat.mul Rat.inv Rat.add Rat.sub in
/-- Counterexample to C5 as stated: when `v` equals the current volume, no
ramp at all is scheduled (the code's `!==` guard filters it), so "for every
value v, exactly one ramp" fails at `v = 4/5` on an engine whose current
volume is `4/5`. -/
theorem c5_counterexample :
    playingState.isPlaying = true ∧
    playingState.currentSettings = Option.some sampleSettings ∧
    sampleSettings.volume = 4 / 5 ∧
    (updateSettings playingState (onlyVolume (4 / 5))).2 = [] := by
  refine ⟨by decide, by decide, by decide, by decide⟩

unseal Rat.mul Rat.inv Rat.add Rat.sub in
/-- Witness for C5 at the concrete playing engine, changing volume to
`1/2`. -/
theorem c5_witness :
    playingState.isPlaying = true ∧
    playingState.currentSettings = Option.some sampleSettings ∧
    playingState.audioContext = Option.some 0 ∧
    playingState.masterGain = Option.some 1 ∧
    (1 / 2 : ℚ) ≠ sampleSettings.volume ∧
    ((updateSettings playingState (onlyVolume (1 / 2))).2 =
      [AudioEvent.linearRamp 1 ParamKind.gain (1 / 2)
        (playingState.currentTime + RAMP_TIME)] ∧
     (updateSettings playingState (onlyVolume (1 / 2))).1 =
      { playingState with
          currentSettings := Option.some { sampleSettings with volume := 1 / 2 } } ∧
     stopMarkCount (updateSettings playingState (onlyVolume (1 / 2))).2 = 0 ∧
     createCount (updateSettings playingState (onlyVolume (1 / 2))).2 = 0) :=
  ⟨by decide, by decide, by decide, by decide, by decide,
   c5_volume_smooth_ramp playingState sampleSettings 0 1 (1 / 2)
     (by decide) (by decide) (by decide) (by decide) (by decide)⟩

/-- C8: on a playing engine whose current `noiseType` is `"none"`,
`updateSettings({noiseLevel: x})` records `x` in the settings but issues no
event at all — in particular no ramp on any node. -/
theorem c8_noiseLevel_stored_not_applied
    (st : EngineState) (cs : ModulationSettings) (a : Nat) (x : ℚ)
    (hp : st.isPlaying = true) (hcs : st.currentSettings = Option.some cs)
    (ha : st.audioContext = Option.some a) (ht : cs.noiseType = NoiseType.none) :
    (updateSettings st (onlyNoiseLevel x)).2 = [] ∧
    (updateSettings st (onlyNoiseLevel x)).1 =
      { st with currentSettings := Option.some { cs with noiseLevel := x } } := by
  unfold updateSettings
  cases hng : st.noiseGain <;>
    simp [hp, hcs, ha, ht, hng, onlyNoiseLevel, requiresRestart, changedQ,
      changedNoise, crossesZero, mergeSettings]

/-- Sample settings with noise disabled (`noiseType: "none"`). -/
def noNoiseSettings : ModulationSettings :=
  { sampleSettings with noiseType := NoiseType.none, noiseLevel := 0 }

/-- A playing engine whose current `noiseType` is `"none"`. -/
def playingNoNoise : EngineState := (play readyState noNoiseSettings).1

unseal Rat.mul Rat.inv Rat.add Rat.sub in
/-- Witness for C8 at a concrete playing engine with `noiseType: "none"`,
updating `noiseLevel` to `3/10`. -/
theorem c8_witness :
    playingNoNoise.isPlaying = true ∧
    playingNoNoise.currentSettings = Option.some noNoiseSettings ∧
    playingNoNoise.audioContext = Option.some 0 ∧
    noNoiseSettings.noiseType = NoiseType.none ∧
    ((updateSettings playingNoNoise (onlyNoiseLevel (3 / 10))).2 = [] ∧
     (updateSettings playingNoNoise (onlyNoiseLevel (3 / 10))).1 =
      { playingNoNoise with
          currentSettings :=
            Option.some { noNoiseSettings with noiseLevel := 3 / 10 } }) :=
  ⟨by decide, by decide, by decide, by decide,
   c8_noiseLevel_stored_not_applied playingNoNoise noNoiseSettings 0 (3 / 10)
     (by decide) (by decide) (by decide) (by decide)⟩

/-- C4 (amended: `f` must differ from the current `carrierFrequency`, since
the code compares `settings.carrierFrequency !== oldSettings.carrierFrequency`
before restarting): on a playing engine, any delta carrying a changed
`carrierFrequency` makes `updateSettings` call `play` on the merged
snapshot, whose trace is the trace of one `stop()` invocation followed by a
rebuild that re-enters `stop()` zero times and creates at least one node —
regardless of other fields present in the same delta. -/
theorem c4_carrier_restart
    (st : EngineState) (cs : ModulationSettings) (a mg cg ng : Nat) (f : ℚ)
    (d : SettingsDelta)
    (hp : st.isPlaying = true) (hcs : st.currentSettings = Option.some cs)
    (ha : st.audioContext = Option.some a) (hm : st.masterGain = Option.some mg)
    (hc : st.carrierGain = Option.some cg) (hn : st.noiseGain = Option.some ng)
    (hd : d.carrierFrequency = Option.some f) (hf : f ≠ cs.carrierFrequency) :
    updateSettings st d = play st (mergeSettings cs d) ∧
    ∃ rebuild,
      (updateSettings st d).2 = (stopEngine st).2 ++ rebuild ∧
      stopMarkCount (stopEngine st).2 = 1 ∧
      stopMarkCount rebuild = 0 ∧
      0 < createCount rebuild := by
  have hr : requiresRestart cs d = true := by
    simp [requiresRestart, changedQ, hd, hf]
  have he := updateSettings_restart st cs a d hp hcs ha hr
  have hplay := play_eq_playing st (mergeSettings cs d) a mg cg ng ha hm hc hn hp
  refine ⟨he,
    (playBody (stopEngine st).1 (mergeSettings cs d) mg cg ng).2, ?_, ?_, ?_, ?_⟩
  · rw [he, hplay]
  · exact (stopWith_counts _ _).2.2.1
  · exact playBody_stopMarkCount _ _ _ _ _
  · exact playBody_createPos _ _ _ _ _

unseal Rat.mul Rat.inv Rat.add Rat.sub in
/-- Counterexample to C4 as stated: when `f` equals the current
`carrierFrequency`, `updateSettings({carrierFrequency: f})` emits no event
at all — the `stop`-then-rebuild cycle does not happen — so "for every
value f" fails at `f = 440` on an engine whose current carrier is 440. -/
theorem c4_counterexample :
    playingState.isPlaying = true ∧
    playingState.currentSettings = Option.some sampleSettings ∧
    sampleSettings.carrierFrequency = 440 ∧
    (updateSettings playingState
      { carrierFrequency := Option.some 440 }).2 = [] ∧
    stopMarkCount (updateSettings playingState
      { carrierFrequency := Option.some 440 }).2 = 0 :=
  ⟨by decide, by decide, by decide, by decide, by decide⟩

unseal Rat.mul Rat.inv Rat.add Rat.sub in
/-- Witness for C4 at the concrete playing engine and the delta
`{carrierFrequency: 880}`. -/
theorem c4_witness :
    playingState.isPlaying = true ∧
    playingState.currentSettings = Option.some sampleSettings ∧
    (880 : ℚ) ≠ sampleSettings.carrierFrequency ∧
    (updateSettings playingState deltaCarrier880 =
        play playingState (mergeSettings sampleSettings deltaCarrier880) ∧
      ∃ rebuild,
        (updateSettings playingState deltaCarrier880).2 =
          (stopEngine playingState).2 ++ rebuild ∧
        stopMarkCount (stopEngine playingState).2 = 1 ∧
        stopMarkCount rebuild = 0 ∧
        0 < createCount rebuild) :=
  ⟨by decide, by decide, by decide,
   c4_carrier_restart playingState sampleSettings 0 1 2 5 880 deltaCarrier880
     (by decide) (by decide) (by decide) (by decide) (by decide) (by decide)
     (by decide) (by decide)⟩

/-- C9: `cleanup()` followed by `initialize()` followed by `play(s)`
reproduces a fresh engine's first `play(s)` exactly: `cleanup` returns the
engine to the pristine uninitialized state (node identifiers and the clock
are scoped to the closed context), so the subsequent `initialize` and `play`
produce identical states and identical event traces. -/
theorem c9_cleanup_roundtrip (st : EngineState) (s : ModulationSettings) :
    (cleanup st).1 = initState ∧
    initEngine (cleanup st).1 = initEngine initState ∧
    play (initEngine (cleanup st).1).1 s = play (initEngine initState).1 s :=
  ⟨rfl, rfl, rfl⟩

/-- C7: after `play(s)` followed by `stop()`, every transient node reference
(oscillators, LFOs, modulation gains, panner, noise source) and the three
routing-destination bookkeeping fields are null, while the persistent gain
nodes created in `initialize` are still the original ones; they become null
only under `cleanup`. -/
theorem c7_stop_resets_transients
    (st : EngineState) (s : ModulationSettings) (a mg cg ng lg rg : Nat)
    (ha : st.audioContext = Option.some a) (hm : st.masterGain = Option.some mg)
    (hc : st.carrierGain = Option.some cg) (hn : st.noiseGain = Option.some ng)
    (hl : st.leftGain = Option.some lg) (hr : st.rightGain = Option.some rg) :
    (stopEngine (play st s).1).1.oscillator = Option.none ∧
    (stopEngine (play st s).1).1.leftOscillator = Option.none ∧
    (stopEngine (play st s).1).1.rightOscillator = Option.none ∧
    (stopEngine (play st s).1).1.aModOscillator = Option.none ∧
    (stopEngine (play st s).1).1.stereoLFO = Option.none ∧
    (stopEngine (play st s).1).1.fModOscillator = Option.none ∧
    (stopEngine (play st s).1).1.aModGain = Option.none ∧
    (stopEngine (play st s).1).1.aModDepthGain = Option.none ∧
    (stopEngine (play st s).1).1.stereoPanner = Option.none ∧
    (stopEngine (play st s).1).1.stereoDepthGain = Option.none ∧
    (stopEngine (play st s).1).1.fModDepthGain = Option.none ∧
    (stopEngine (play st s).1).1.noiseNode = Option.none ∧
    (stopEngine (play st s).1).1.leftChannelDestination = Option.none ∧
    (stopEngine (play st s).1).1.rightChannelDestination = Option.none ∧
    (stopEngine (play st s).1).1.mainOutputDestination = Option.none ∧
    (stopEngine (play st s).1).1.isPlaying = false ∧
    (stopEngine (play st s).1).1.masterGain = Option.some mg ∧
    (stopEngine (play st s).1).1.carrierGain = Option.some cg ∧
    (stopEngine (play st s).1).1.noiseGain = Option.some ng ∧
    (stopEngine (play st s).1).1.leftGain = Option.some lg ∧
    (stopEngine (play st s).1).1.rightGain = Option.some rg ∧
    (stopEngine (play st s).1).1.audioContext = Option.some a ∧
    (cleanup (stopEngine (play st s).1).1).1.masterGain = Option.none ∧
    (cleanup (stopEngine (play st s).1).1).1.carrierGain = Option.none ∧
    (cleanup (stopEngine (play st s).1).1).1.noiseGain = Option.none ∧
    (cleanup (stopEngine (play st s).1).1).1.leftGain = Option.none ∧
    (cleanup (stopEngine (play st s).1).1).1.rightGain = Option.none := by
  have hps := play_state st s a mg cg ng ha hm hc hn
  have hcl := stopWith_clears (fun _ => false) (play st s).1 hps.2.1
    (by rw [hps.2.2.1]; rfl)
  have hpr := stopWith_preserved (fun _ => false) (play st s).1
  unfold stopEngine at *
  refine ⟨hcl.1, hcl.2.1, hcl.2.2.1, hcl.2.2.2.1, hcl.2.2.2.2.2.2.2.1,
    hcl.2.2.2.2.2.2.2.2.2.1, hcl.2.2.2.2.1, hcl.2.2.2.2.2.1, hcl.2.2.2.2.2.2.1,
    hcl.2.2.2.2.2.2.2.2.1, hcl.2.2.2.2.2.2.2.2.2.2.1, hcl.2.2.2.2.2.2.2.2.2.2.2.1,
    hcl.2.2.2.2.2.2.2.2.2.2.2.2.1, hcl.2.2.2.2.2.2.2.2.2.2.2.2.2.1,
    hcl.2.2.2.2.2.2.2.2.2.2.2.2.2.2.1, hcl.2.2.2.2.2.2.2.2.2.2.2.2.2.2.2,
    ?_, ?_, ?_, ?_, ?_, ?_, rfl, rfl, rfl, rfl, rfl⟩
  · rw [hpr.2.1]; exact hps.2.2.2.1
  · rw [hpr.2.2.1]; exact hps.2.2.2.2.1
  · rw [hpr.2.2.2.2.2.1]; exact hps.2.2.2.2.2.1
  · rw [hpr.2.2.2.1]; exact hps.2.2.2.2.2.2.1.symm ▸ hl
  · rw [hpr.2.2.2.2.1]; exact hps.2.2.2.2.2.2.2.1.symm ▸ hr
  · rw [hpr.1]; exact hps.2.2.1

/-- Witness for C7 at the concrete fresh engine and sample settings. -/
theorem c7_witness :
    readyState.audioContext = Option.some 0 ∧
    readyState.masterGain = Option.some 1 ∧
    readyState.carrierGain = Option.some 2 ∧
    readyState.noiseGain = Option.some 5 ∧
    readyState.leftGain = Option.some 3 ∧
    readyState.rightGain = Option.some 4 ∧
    ((stopEngine (play readyState sampleSettings).1).1.oscillator = Option.none ∧
     (stopEngine (play readyState sampleSettings).1).1.leftOscillator = Option.none ∧
     (stopEngine (play readyState sampleSettings).1).1.rightOscillator = Option.none ∧
     (stopEngine (play readyState sampleSettings).1).1.aModOscillator = Option.none ∧
     (stopEngine (play readyState sampleSettings).1).1.stereoLFO = Option.none ∧
     (stopEngine (play readyState sampleSettings).1).1.fModOscillator = Option.none ∧
     (stopEngine (play readyState sampleSettings).1).1.aModGain = Option.none ∧
     (stopEngine (play readyState sampleSettings).1).1.aModDepthGain = Option.none ∧
     (stopEngine (play readyState sampleSettings).1).1.stereoPanner = Option.none ∧
     (stopEngine (play readyState sampleSettings).1).1.stereoDepthGain = Option.none ∧
     (stopEngine (play readyState sampleSettings).1).1.fModDepthGain = Option.none ∧
     (stopEngine (play readyState sampleSettings).1).1.noiseNode = Option.none ∧
     (stopEngine (play readyState sampleSettings).1).1.leftChannelDestination = Option.none ∧
     (stopEngine (play readyState sampleSettings).1).1.rightChannelDestination = Option.none ∧
     (stopEngine (play readyState sampleSettings).1).1.mainOutputDestination = Option.none ∧
     (stopEngine (play readyState sampleSettings).1).1.isPlaying = false ∧
     (stopEngine (play readyState sampleSettings).1).1.masterGain = Option.some 1 ∧
     (stopEngine (play readyState sampleSettings).1).1.carrierGain = Option.some 2 ∧
     (stopEngine (play readyState sampleSettings).1).1.noiseGain = Option.some 5 ∧
     (stopEngine (play readyState sampleSettings).1).1.leftGain = Option.some 3 ∧
     (stopEngine (play readyState sampleSettings).1).1.rightGain = Option.some 4 ∧
     (stopEngine (play readyState sampleSettings).1).1.audioContext = Option.some 0 ∧
     (cleanup (stopEngine (play readyState sampleSettings).1).1).1.masterGain = Option.none ∧
     (cleanup (stopEngine (play readyState sampleSettings).1).1).1.carrierGain = Option.none ∧
     (cleanup (stopEngine (play readyState sampleSettings).1).1).1.noiseGain = Option.none ∧
     (cleanup (stopEngine (play readyState sampleSettings).1).1).1.leftGain = Option.none ∧
     (cleanup (stopEngine (play readyState sampleSettings).1).1).1.rightGain = Option.none) :=
  ⟨rfl, rfl, rfl, rfl, rfl, rfl,
   c7_stop_resets_transients readyState sampleSettings 0 1 2 5 3 4
     rfl rfl rfl rfl rfl rfl⟩

/-- When no operation in the try-block throws, every stop/disconnect in the
sequence executes, in order. -/
theorem runOps_complete (fails : StopOp → Bool) (ops : List StopOp)
    (h : (runOps fails ops).2 = false) :
    (runOps fails ops).1 = ops.map StopOp.event := by
  induction ops with
  | nil => simp [runOps]
  | cons op rest ih =>
    by_cases hf : fails op = true
    · simp [runOps, hf] at h
    · simp only [runOps, hf, Bool.false_eq_true, if_false, List.map_cons] at h ⊢
      exact congrArg _ (ih h)

/-- C6 (amended: the try/catch in `stop()` wraps the whole stop/disconnect
sequence in a single handler, not one per operation): for every failure
oracle, `stop()` on a playing engine returns normally with exactly the same
state as a failure-free `stop()` — all transient references nulled, playback
cleared, persistent gains kept — a failure is logged as a warning, and when
nothing fails every stop/disconnect operation executes; but operations after
the first failing one are skipped, as the counterexample shows. -/
theorem c6_stop_failure_tolerance (fails : StopOp → Bool) (st : EngineState) (a : Nat)
    (hp : st.isPlaying = true) (ha : st.audioContext = Option.some a) :
    (stopWith fails st).1 = (stopEngine st).1 ∧
    (stopWith fails st).1.oscillator = Option.none ∧
    (stopWith fails st).1.leftOscillator = Option.none ∧
    (stopWith fails st).1.rightOscillator = Option.none ∧
    (stopWith fails st).1.aModOscillator = Option.none ∧
    (stopWith fails st).1.stereoLFO = Option.none ∧
    (stopWith fails st).1.fModOscillator = Option.none ∧
    (stopWith fails st).1.aModGain = Option.none ∧
    (stopWith fails st).1.aModDepthGain = Option.none ∧
    (stopWith fails st).1.stereoPanner = Option.none ∧
    (stopWith fails st).1.stereoDepthGain = Option.none ∧
    (stopWith fails st).1.fModDepthGain = Option.none ∧
    (stopWith fails st).1.noiseNode = Option.none ∧
    (stopWith fails st).1.isPlaying = false ∧
    (stopWith fails st).1.masterGain = st.masterGain ∧
    (stopWith fails st).1.leftGain = st.leftGain ∧
    (stopWith fails st).1.rightGain = st.rightGain ∧
    ((runOps fails (stopOps st)).2 = true →
      AudioEvent.warnLogged ∈ (stopWith fails st).2) ∧
    ((runOps fails (stopOps st)).2 = false →
      (stopWith fails st).2 =
        AudioEvent.stopInvoked :: (stopOps st).map StopOp.event) := by
  have hcl := stopWith_clears fails st hp (by rw [ha]; rfl)
  have hpr := stopWith_preserved fails st
  refine ⟨?_, hcl.1, hcl.2.1, hcl.2.2.1, hcl.2.2.2.1, hcl.2.2.2.2.2.2.2.1,
    hcl.2.2.2.2.2.2.2.2.2.1, hcl.2.2.2.2.1, hcl.2.2.2.2.2.1, hcl.2.2.2.2.2.2.1,
    hcl.2.2.2.2.2.2.2.2.1, hcl.2.2.2.2.2.2.2.2.2.2.1, hcl.2.2.2.2.2.2.2.2.2.2.2.1,
    hcl.2.2.2.2.2.2.2.2.2.2.2.2.2.2.2, hpr.2.1, hpr.2.2.2.1, hpr.2.2.2.2.1, ?_, ?_⟩
  · unfold stopWith stopEngine stopWith
    simp [hp, ha]
  · intro hf
    unfold stopWith
    simp [hp, ha, hf]
  · intro hf
    unfold stopWith
    simp [hp, ha, hf, runOps_complete fails (stopOps st) hf]

/-- Settings exercising the basic-oscillator path with background noise and
no modulation stages. -/
def basicNoiseSettings : ModulationSettings :=
  { sampleSettings with binauralIntensity := 0, aModDepth := 0 }

/-- A playing engine with a basic oscillator (node 7) and a noise source
(node 8). -/
def playingBasicNoise : EngineState := (play readyState basicNoiseSettings).1

unseal Rat.mul Rat.inv Rat.add Rat.sub in
/-- Counterexample to C6 as stated: on a playing engine holding a basic
oscillator (node 7) and a noise source (node 8), when stopping the
oscillator throws, the catch handler logs a warning and `stop` completes —
but the noise source is never stopped nor disconnected, and neither is any
other node: the single try/catch skips every operation after the failing
one, refuting "a failure on one node does not block stopping/disconnecting
the others". -/
theorem c6_counterexample :
    playingBasicNoise.isPlaying = true ∧
    playingBasicNoise.oscillator = Option.some 7 ∧
    playingBasicNoise.noiseNode = Option.some 8 ∧
    (stopWith (fun op => decide (op = StopOp.stopN 7)) playingBasicNoise).2 =
      [AudioEvent.stopInvoked, AudioEvent.warnLogged] ∧
    AudioEvent.stopNode 8 ∉
      (stopWith (fun op => decide (op = StopOp.stopN 7)) playingBasicNoise).2 ∧
    AudioEvent.disconnect 8 ∉
      (stopWith (fun op => decide (op = StopOp.stopN 7)) playingBasicNoise).2 :=
  ⟨by decide, by decide, by decide, by decide, by decide, by decide⟩

unseal Rat.mul Rat.inv Rat.add Rat.sub in
/-- Witness for C6 at the concrete playing engine under the oracle that
fails the very first operation (stopping oscillator 7). -/
theorem c6_witness :
    playingBasicNoise.isPlaying = true ∧
    playingBasicNoise.audioContext = Option.some 0 ∧
    ((stopWith (fun op => decide (op = StopOp.stopN 7)) playingBasicNoise).1 =
        (stopEngine playingBasicNoise).1 ∧
     (stopWith (fun op => decide (op = StopOp.stopN 7)) playingBasicNoise).1.oscillator =
        Option.none ∧
     (stopWith (fun op => decide (op = StopOp.stopN 7)) playingBasicNoise).1.leftOscillator =
        Option.none ∧
     (stopWith (fun op => decide (op = StopOp.stopN 7)) playingBasicNoise).1.rightOscillator =
        Option.none ∧
     (stopWith (fun op => decide (op = StopOp.stopN 7)) playingBasicNoise).1.aModOscillator =
        Option.none ∧
     (stopWith (fun op => decide (op = StopOp.stopN 7)) playingBasicNoise).1.stereoLFO =
        Option.none ∧
     (stopWith (fun op => decide (op = StopOp.stopN 7)) playingBasicNoise).1.fModOscillator =
        Option.none ∧
     (stopWith (fun op => decide (op = StopOp.stopN 7)) playingBasicNoise).1.aModGain =
        Option.none ∧
     (stopWith (fun op => decide (op = StopOp.stopN 7)) playingBasicNoise).1.aModDepthGain =
        Option.none ∧
     (stopWith (fun op => decide (op = StopOp.stopN 7)) playingBasicNoise).1.stereoPanner =
        Option.none ∧
     (stopWith (fun op => decide (op = StopOp.stopN 7)) playingBasicNoise).1.stereoDepthGain =
        Option.none ∧
     (stopWith (fun op => decide (op = StopOp.stopN 7)) playingBasicNoise).1.fModDepthGain =
        Option.none ∧
     (stopWith (fun op => decide (op = StopOp.stopN 7)) playingBasicNoise).1.noiseNode =
        Option.none ∧
     (stopWith (fun op => decide (op = StopOp.stopN 7)) playingBasicNoise).1.isPlaying =
        false ∧
     (stopWith (fun op => decide (op = StopOp.stopN 7)) playingBasicNoise).1.masterGain =
        playingBasicNoise.masterGain ∧
     (stopWith (fun op => decide (op = StopOp.stopN 7)) playingBasicNoise).1.leftGain =
        playingBasicNoise.leftGain ∧
     (stopWith (fun op => decide (op = StopOp.stopN 7)) playingBasicNoise).1.rightGain =
        playingBasicNoise.rightGain ∧
     ((runOps (fun op => decide (op = StopOp.stopN 7))
         (stopOps playingBasicNoise)).2 = true →
       AudioEvent.warnLogged ∈
         (stopWith (fun op => decide (op = StopOp.stopN 7)) playingBasicNoise).2) ∧
     ((runOps (fun op => decide (op = StopOp.stopN 7))
         (stopOps playingBasicNoise)).2 = false →
       (stopWith (fun op => decide (op = StopOp.stopN 7)) playingBasicNoise).2 =
         AudioEvent.stopInvoked ::
           (stopOps playingBasicNoise).map StopOp.event)) :=
  ⟨by decide, by decide,
   c6_stop_failure_tolerance (fun op => decide (op = StopOp.stopN 7))
     playingBasicNoise 0 (by decide) (by decide)⟩

/-- The binaural branch of build step 1, as one equation: with a live
context and channel gains, the left/right oscillators get fresh identifiers
and the frequencies `carrier ∓ (beat × intensity) / 2`. -/
theorem stageSource_binaural (st : EngineState) (s : ModulationSettings) (m a lg rg : Nat)
    (ha : st.audioContext = Option.some a) (hl : st.leftGain = Option.some lg)
    (hr : st.rightGain = Option.some rg) (hI : 0 < s.binauralIntensity) :
    stageSource st s m =
      ({ st with
          leftOscillator := Option.some st.nextId
          rightOscillator := Option.some (st.nextId + 1)
          leftChannelDestination := Option.some m
          rightChannelDestination := Option.some m
          mainOutputDestination := Option.none
          nextId := st.nextId + 2 },
       [AudioEvent.createNode st.nextId NodeKind.oscillator,
        AudioEvent.createNode (st.nextId + 1) NodeKind.oscillator,
        AudioEvent.setValue st.nextId ParamKind.frequency
          (s.carrierFrequency - s.beatFrequency * s.binauralIntensity / 2) st.currentTime,
        AudioEvent.setValue (st.nextId + 1) ParamKind.frequency
          (s.carrierFrequency + s.beatFrequency * s.binauralIntensity / 2) st.currentTime,
        AudioEvent.setValue lg ParamKind.gain 1 st.currentTime,
        AudioEvent.setValue rg ParamKind.gain 1 st.currentTime,
        AudioEvent.connect st.nextId lg Option.none,
        AudioEvent.connect (st.nextId + 1) rg Option.none,
        AudioEvent.connect lg m (Option.some (0, 0)),
        AudioEvent.connect rg m (Option.some (0, 1)),
        AudioEvent.startNode st.nextId,
        AudioEvent.startNode (st.nextId + 1)]) := by
  unfold stageSource setupBinauralBeats
  simp [ha, hl, hr, hI]

/-- Inside the graph build, a binaural request yields left/right oscillators
at `carrier ∓ (beat × intensity) / 2`, recorded in the final state and set
through `setValueAtTime` events in the trace. -/
theorem playBody_binaural (st : EngineState) (s : ModulationSettings) (mg cg ng a lg rg : Nat)
    (ha : st.audioContext = Option.some a) (hl : st.leftGain = Option.some lg)
    (hr : st.rightGain = Option.some rg) (hI : 0 < s.binauralIntensity) :
    (playBody st s mg cg ng).1.leftOscillator = Option.some (st.nextId + 1) ∧
    (playBody st s mg cg ng).1.rightOscillator = Option.some (st.nextId + 2) ∧
    AudioEvent.setValue (st.nextId + 1) ParamKind.frequency
      (s.carrierFrequency - s.beatFrequency * s.binauralIntensity / 2) st.currentTime
      ∈ (playBody st s mg cg ng).2 ∧
    AudioEvent.setValue (st.nextId + 2) ParamKind.frequency
      (s.carrierFrequency + s.beatFrequency * s.binauralIntensity / 2) st.currentTime
      ∈ (playBody st s mg cg ng).2 := by
  have hsrc := stageSource_binaural
    { st with currentSettings := Option.some s, nextId := st.nextId + 1 }
    s st.nextId a lg rg (by simpa using ha) (by simpa using hl) (by simpa using hr) hI
  unfold playBody graphChain
  simp only at hsrc ⊢
  rw [hsrc]
  simp

/-- C2: for every settings with `binauralIntensity > 0`, `play` creates the
left oscillator at `carrier − (beat × intensity)/2` and the right oscillator
at `carrier + (beat × intensity)/2` — intensity scales the separation, not
the carrier. -/
theorem c2_binaural_split (st : EngineState) (s : ModulationSettings)
    (a mg cg ng lg rg : Nat)
    (ha : st.audioContext = Option.some a) (hm : st.masterGain = Option.some mg)
    (hc : st.carrierGain = Option.some cg) (hn : st.noiseGain = Option.some ng)
    (hl : st.leftGain = Option.some lg) (hr : st.rightGain = Option.some rg)
    (hI : 0 < s.binauralIntensity) :
    ∃ l r : Nat, l ≠ r ∧
      (play st s).1.leftOscillator = Option.some l ∧
      (play st s).1.rightOscillator = Option.some r ∧
      AudioEvent.setValue l ParamKind.frequency
        (s.carrierFrequency - s.beatFrequency * s.binauralIntensity / 2) st.currentTime
        ∈ (play st s).2 ∧
      AudioEvent.setValue r ParamKind.frequency
        (s.carrierFrequency + s.beatFrequency * s.binauralIntensity / 2) st.currentTime
        ∈ (play st s).2 := by
  by_cases hp : st.isPlaying = true
  · rw [play_eq_playing st s a mg cg ng ha hm hc hn hp]
    have hpre := stopWith_preserved (fun _ => false) st
    have hb := playBody_binaural (stopEngine st).1 s mg cg ng a lg rg
      (by unfold stopEngine at *; rw [hpre.1, ha])
      (by unfold stopEngine at *; rw [hpre.2.2.2.1, hl])
      (by unfold stopEngine at *; rw [hpre.2.2.2.2.1, hr]) hI
    have hct : (stopEngine st).1.currentTime = st.currentTime := hpre.2.2.2.2.2.2.2.1
    rw [hct] at hb
    exact ⟨(stopEngine st).1.nextId + 1, (stopEngine st).1.nextId + 2, by omega,
      hb.1, hb.2.1, List.mem_append_right _ hb.2.2.1, List.mem_append_right _ hb.2.2.2⟩
  · rw [play_eq_stopped st s a mg cg ng ha hm hc hn (by simpa using hp)]
    have hb := playBody_binaural st s mg cg ng a lg rg ha hl hr hI
    exact ⟨st.nextId + 1, st.nextId + 2, by omega, hb.1, hb.2.1, hb.2.2.1, hb.2.2.2⟩

/-- Sample settings at half binaural intensity. -/
def halfIntensitySettings : ModulationSettings :=
  { sampleSettings with binauralIntensity := 1 / 2 }

unseal Rat.mul Rat.inv Rat.add Rat.sub in
/-- Witness for C2 at the fresh engine: carrier 440, beat 10 at intensity 1
yields 435/445 Hz, and at intensity 1/2 yields 437.5/442.5 Hz. -/
theorem c2_witness :
    readyState.audioContext = Option.some 0 ∧
    (0 : ℚ) < sampleSettings.binauralIntensity ∧
    (∃ l r : Nat, l ≠ r ∧
      (play readyState sampleSettings).1.leftOscillator = Option.some l ∧
      (play readyState sampleSettings).1.rightOscillator = Option.some r ∧
      AudioEvent.setValue l ParamKind.frequency
        (sampleSettings.carrierFrequency -
          sampleSettings.beatFrequency * sampleSettings.binauralIntensity / 2)
        readyState.currentTime ∈ (play readyState sampleSettings).2 ∧
      AudioEvent.setValue r ParamKind.frequency
        (sampleSettings.carrierFrequency +
          sampleSettings.beatFrequency * sampleSettings.binauralIntensity / 2)
        readyState.currentTime ∈ (play readyState sampleSettings).2) ∧
    sampleSettings.carrierFrequency -
      sampleSettings.beatFrequency * sampleSettings.binauralIntensity / 2 = 435 ∧
    sampleSettings.carrierFrequency +
      sampleSettings.beatFrequency * sampleSettings.binauralIntensity / 2 = 445 ∧
    (∃ l r : Nat, l ≠ r ∧
      (play readyState halfIntensitySettings).1.leftOscillator = Option.some l ∧
      (play readyState halfIntensitySettings).1.rightOscillator = Option.some r ∧
      AudioEvent.setValue l ParamKind.frequency
        (halfIntensitySettings.carrierFrequency -
          halfIntensitySettings.beatFrequency * halfIntensitySettings.binauralIntensity / 2)
        readyState.currentTime ∈ (play readyState halfIntensitySettings).2 ∧
      AudioEvent.setValue r ParamKind.frequency
        (halfIntensitySettings.carrierFrequency +
          halfIntensitySettings.beatFrequency * halfIntensitySettings.binauralIntensity / 2)
        readyState.currentTime ∈ (play readyState halfIntensitySettings).2) ∧
    halfIntensitySettings.carrierFrequency -
      halfIntensitySettings.beatFrequency * halfIntensitySettings.binauralIntensity / 2 =
        875 / 2 ∧
    halfIntensitySettings.carrierFrequency +
      halfIntensitySettings.beatFrequency * halfIntensitySettings.binauralIntensity / 2 =
        885 / 2 :=
  ⟨by decide, by decide,
   c2_binaural_split readyState sampleSettings 0 1 2 5 3 4
     (by decide) (by decide) (by decide) (by decide) (by decide) (by decide) (by decide),
   by decide, by decide,
   c2_binaural_split readyState halfIntensitySettings 0 1 2 5 3 4
     (by decide) (by decide) (by decide) (by decide) (by decide) (by decide) (by decide),
   by decide, by decide⟩

/-- The success branch of `setupAmplitudeModulation`: under a live context
the modulated gain rests at `1 - depth/2` and the LFO depth-scaling gain at
`depth/2`, both recorded in the state and set in the trace. -/
theorem setupAmplitudeModulation_success (st : EngineState) (d f : ℚ) (a : Nat)
    (ha : st.audioContext = Option.some a) :
    (setupAmplitudeModulation st d f).1.aModGain = Option.some (st.nextId + 1) ∧
    (setupAmplitudeModulation st d f).1.aModDepthGain = Option.some (st.nextId + 2) ∧
    AudioEvent.setValue (st.nextId + 1) ParamKind.gain (1 - d / 2) st.currentTime
      ∈ (setupAmplitudeModulation st d f).2.1 ∧
    AudioEvent.setValue (st.nextId + 2) ParamKind.gain (d / 2) st.currentTime
      ∈ (setupAmplitudeModulation st d f).2.1 := by
  unfold setupAmplitudeModulation
  simp [ha]

/-- Inside the graph build, an amplitude-modulation request yields adjacent
modulated/depth gain nodes resting at `1 - depth/2` and `depth/2`. -/
theorem playBody_amod (st : EngineState) (s : ModulationSettings) (mg cg ng a : Nat)
    (ha : st.audioContext = Option.some a) (hD : 0 < s.aModDepth) :
    ∃ g dg : Nat, g + 1 = dg ∧
      (playBody st s mg cg ng).1.aModGain = Option.some g ∧
      (playBody st s mg cg ng).1.aModDepthGain = Option.some dg ∧
      AudioEvent.setValue g ParamKind.gain (1 - s.aModDepth / 2) st.currentTime
        ∈ (playBody st s mg cg ng).2 ∧
      AudioEvent.setValue dg ParamKind.gain (s.aModDepth / 2) st.currentTime
        ∈ (playBody st s mg cg ng).2 := by
  have hctx : (stageSource
      { st with currentSettings := Option.some s, nextId := st.nextId + 1 }
      s st.nextId).1.audioContext = Option.some a := by
    simp [ha]
  have hct : (stageSource
      { st with currentSettings := Option.some s, nextId := st.nextId + 1 }
      s st.nextId).1.currentTime = st.currentTime := by
    simp
  have hA := setupAmplitudeModulation_success
    (stageSource { st with currentSettings := Option.some s, nextId := st.nextId + 1 }
      s st.nextId).1 s.aModDepth s.beatFrequency a hctx
  rw [hct] at hA
  have hstage : ∀ c : Nat, stageAMod
      (stageSource { st with currentSettings := Option.some s, nextId := st.nextId + 1 }
        s st.nextId).1 s c =
      setupAmplitudeModulation
        (stageSource { st with currentSettings := Option.some s, nextId := st.nextId + 1 }
          s st.nextId).1 s.aModDepth s.beatFrequency := by
    intro c
    unfold stageAMod
    rw [if_pos hD]
  unfold playBody graphChain
  simp only at hA hstage ⊢
  rw [hstage]
  refine ⟨(stageSource
      { st with currentSettings := Option.some s, nextId := st.nextId + 1 }
      s st.nextId).1.nextId + 1,
    (stageSource
      { st with currentSettings := Option.some s, nextId := st.nextId + 1 }
      s st.nextId).1.nextId + 2, rfl, ?_, ?_, ?_, ?_⟩
  · simp [hA.1]
  · simp [hA.2.1]
  · have hm := hA.2.2.1
    simp only [List.mem_append]
    tauto
  · have hm := hA.2.2.2
    simp only [List.mem_append]
    tauto

/-- C3: for every depth in (0,1], the amplitude-modulation stage sets the
modulated gain's resting value to `1 − depth/2` and the LFO depth-scaling
gain to `depth/2` (gain range `[1−depth, 1]`), both when the stage is built
in `play` and when a smooth `updateSettings` changes `aModDepth` between two
nonzero values, in which case the two existing gains are ramped to
`1 − newDepth/2` and `newDepth/2` without a rebuild. -/
theorem c3_amod_centering (st : EngineState) (s : ModulationSettings)
    (a mg cg ng : Nat)
    (ha : st.audioContext = Option.some a) (hm : st.masterGain = Option.some mg)
    (hc : st.carrierGain = Option.some cg) (hn : st.noiseGain = Option.some ng)
    (hd0 : 0 < s.aModDepth) (_hd1 : s.aModDepth ≤ 1) :
    (1 - s.aModDepth / 2) - s.aModDepth / 2 = 1 - s.aModDepth ∧
    (1 - s.aModDepth / 2) + s.aModDepth / 2 = 1 ∧
    (∃ g dg : Nat, g + 1 = dg ∧
      (play st s).1.aModGain = Option.some g ∧
      (play st s).1.aModDepthGain = Option.some dg ∧
      AudioEvent.setValue g ParamKind.gain (1 - s.aModDepth / 2) st.currentTime
        ∈ (play st s).2 ∧
      AudioEvent.setValue dg ParamKind.gain (s.aModDepth / 2) st.currentTime
        ∈ (play st s).2) ∧
    (∀ (st2 : EngineState) (cs : ModulationSettings) (a2 g dg : Nat) (v : ℚ),
      st2.isPlaying = true → st2.currentSettings = Option.some cs →
      st2.audioContext = Option.some a2 →
      st2.aModGain = Option.some g → st2.aModDepthGain = Option.some dg →
      0 < cs.aModDepth → 0 < v → v ≤ 1 → v ≠ cs.aModDepth →
      (updateSettings st2 (onlyAModDepth v)).2 =
        [AudioEvent.linearRamp g ParamKind.gain (1 - v / 2)
           (st2.currentTime + RAMP_TIME),
         AudioEvent.linearRamp dg ParamKind.gain (v / 2)
           (st2.currentTime + RAMP_TIME)] ∧
      (updateSettings st2 (onlyAModDepth v)).1 =
        { st2 with currentSettings := Option.some { cs with aModDepth := v } }) := by
  refine ⟨by ring, by ring, ?_, ?_⟩
  · by_cases hp : st.isPlaying = true
    · rw [play_eq_playing st s a mg cg ng ha hm hc hn hp]
      have hpre := stopWith_preserved (fun _ => false) st
      have hb := playBody_amod (stopEngine st).1 s mg cg ng a
        (by unfold stopEngine at *; rw [hpre.1, ha]) hd0
      have hct : (stopEngine st).1.currentTime = st.currentTime :=
        hpre.2.2.2.2.2.2.2.1
      rw [hct] at hb
      obtain ⟨g, dg, hgd, h1, h2, h3, h4⟩ := hb
      exact ⟨g, dg, hgd, h1, h2,
        List.mem_append_right _ h3, List.mem_append_right _ h4⟩
    · rw [play_eq_stopped st s a mg cg ng ha hm hc hn (by simpa using hp)]
      exact playBody_amod st s mg cg ng a ha hd0
  · intro st2 cs a2 g dg v hp2 hcs2 ha2 hg hdg hold hv0 hv1 hvne
    unfold updateSettings
    simp [hp2, hcs2, ha2, hg, hdg, hvne, hv0.ne', hold, hold.ne', onlyAModDepth,
      requiresRestart, changedQ, changedNoise, crossesZero, mergeSettings]

unseal Rat.mul Rat.inv Rat.add Rat.sub in
/-- Witness for C3: the stage built by `play` at depth `1/2` on the fresh
engine, and the smooth ramp from depth `1/2` to `1/10` on the concrete
playing engine (gains 10 and 11), ramping to `19/20` and `1/20`. -/
theorem c3_witness :
    readyState.audioContext = Option.some 0 ∧
    (0 : ℚ) < sampleSettings.aModDepth ∧
    sampleSettings.aModDepth ≤ 1 ∧
    ((1 - sampleSettings.aModDepth / 2) - sampleSettings.aModDepth / 2 =
        1 - sampleSettings.aModDepth ∧
     (1 - sampleSettings.aModDepth / 2) + sampleSettings.aModDepth / 2 = 1 ∧
     (∃ g dg : Nat, g + 1 = dg ∧
        (play readyState sampleSettings).1.aModGain = Option.some g ∧
        (play readyState sampleSettings).1.aModDepthGain = Option.some dg ∧
        AudioEvent.setValue g ParamKind.gain (1 - sampleSettings.aModDepth / 2)
          readyState.currentTime ∈ (play readyState sampleSettings).2 ∧
        AudioEvent.setValue dg ParamKind.gain (sampleSettings.aModDepth / 2)
          readyState.currentTime ∈ (play readyState sampleSettings).2) ∧
     (∀ (st2 : EngineState) (cs : ModulationSettings) (a2 g dg : Nat) (v : ℚ),
        st2.isPlaying = true → st2.currentSettings = Option.some cs →
        st2.audioContext = Option.some a2 →
        st2.aModGain = Option.some g → st2.aModDepthGain = Option.some dg →
        0 < cs.aModDepth → 0 < v → v ≤ 1 → v ≠ cs.aModDepth →
        (updateSettings st2 (onlyAModDepth v)).2 =
          [AudioEvent.linearRamp g ParamKind.gain (1 - v / 2)
             (st2.currentTime + RAMP_TIME),
           AudioEvent.linearRamp dg ParamKind.gain (v / 2)
             (st2.currentTime + RAMP_TIME)] ∧
        (updateSettings st2 (onlyAModDepth v)).1 =
          { st2 with currentSettings := Option.some { cs with aModDepth := v } })) ∧
    playingState.aModGain = Option.some 10 ∧
    playingState.aModDepthGain = Option.some 11 ∧
    ((updateSettings playingState (onlyAModDepth (1 / 10))).2 =
       [AudioEvent.linearRamp 10 ParamKind.gain (1 - (1 / 10) / 2)
          (playingState.currentTime + RAMP_TIME),
        AudioEvent.linearRamp 11 ParamKind.gain ((1 / 10) / 2)
          (playingState.currentTime + RAMP_TIME)] ∧
     (updateSettings playingState (onlyAModDepth (1 / 10))).1 =
       { playingState with
           currentSettings :=
             Option.some { sampleSettings with aModDepth := 1 / 10 } }) := by
  have hmain := c3_amod_centering readyState sampleSettings 0 1 2 5
    (by decide) (by decide) (by decide) (by decide) (by decide) (by decide)
  refine ⟨by decide, by decide, by decide, hmain, by decide, by decide, ?_⟩
  exact hmain.2.2.2 playingState sampleSettings 0 10 11 (1 / 10)
    (by decide) (by decide) (by decide) (by decide) (by decide) (by decide)
    (by decide) (by decide) (by decide)

/-- Build step 5 does nothing when the noise condition
`noiseType !== "none" && noiseLevel > 0` fails. -/
theorem stageNoise_off (st : EngineState) (s : ModulationSettings)
    (h : ¬(s.noiseType ≠ NoiseType.none ∧ 0 < s.noiseLevel)) :
    stageNoise st s = (st, []) := by
  unfold stageNoise
  rw [if_neg h]

/-- The graph build creates a buffer (noise) source exactly when
`noiseType !== "none" && noiseLevel > 0`. -/
theorem playBody_bufCreate (st : EngineState) (s : ModulationSettings)
    (mg cg ng a ngain : Nat)
    (ha : st.audioContext = Option.some a) (hg : st.noiseGain = Option.some ngain) :
    bufCreateCount (playBody st s mg cg ng).2 =
      if s.noiseType ≠ NoiseType.none ∧ 0 < s.noiseLevel then 1 else 0 := by
  unfold playBody
  simp only [bufCreateCount_append]
  rw [(graphChain_counts _ _ _).2.2]
  by_cases hcond : s.noiseType ≠ NoiseType.none ∧ 0 < s.noiseLevel
  · rw [if_pos hcond]
    unfold stageNoise
    rw [if_pos hcond]
    rw [(setupNoise_success
      (graphChain { st with currentSettings := Option.some s, nextId := st.nextId + 1 }
        s st.nextId).1 s.noiseType s.noiseLevel a ngain
      (by simp [ha]) (by simp [hg]) hcond.1).2.2.2]
    simp [bufCreateCount, List.countP_cons, List.countP_nil, AudioEvent.isBufCreate]
  · rw [if_neg hcond, stageNoise_off _ _ hcond]
    simp [bufCreateCount, List.countP_cons, List.countP_nil, AudioEvent.isBufCreate]

/-- When the noise condition holds, the graph build records a fresh, started
buffer source in `noiseNode`. -/
theorem playBody_noise_on (st : EngineState) (s : ModulationSettings)
    (mg cg ng a ngain : Nat)
    (ha : st.audioContext = Option.some a) (hg : st.noiseGain = Option.some ngain)
    (hcond : s.noiseType ≠ NoiseType.none ∧ 0 < s.noiseLevel) :
    ∃ i : Nat, (playBody st s mg cg ng).1.noiseNode = Option.some i ∧
      AudioEvent.createNode i NodeKind.bufferSource ∈ (playBody st s mg cg ng).2 ∧
      AudioEvent.startNode i ∈ (playBody st s mg cg ng).2 := by
  have hN := setupNoise_success
    (graphChain { st with currentSettings := Option.some s, nextId := st.nextId + 1 }
      s st.nextId).1 s.noiseType s.noiseLevel a ngain
    (by simp [ha]) (by simp [hg]) hcond.1
  unfold playBody
  simp only [stageNoise] at *
  rw [if_pos hcond]
  refine ⟨(graphChain { st with currentSettings := Option.some s, nextId := st.nextId + 1 }
      s st.nextId).1.nextId, ?_, ?_, ?_⟩
  · simp [hN.1]
  · have hm := hN.2.1
    simp only [List.mem_append]
    tauto
  · have hm := hN.2.2.1
    simp only [List.mem_append]
    tauto

/-- When the noise condition fails, the graph build leaves `noiseNode`
untouched. -/
theorem playBody_noiseNode_off (st : EngineState) (s : ModulationSettings)
    (mg cg ng : Nat)
    (hcond : ¬(s.noiseType ≠ NoiseType.none ∧ 0 < s.noiseLevel)) :
    (playBody st s mg cg ng).1.noiseNode = st.noiseNode := by
  unfold playBody
  dsimp only
  rw [stageNoise_off _ _ hcond]
  simp

/-- C10: `play` creates and starts a noise source iff both
`noiseType ≠ "none"` and `noiseLevel > 0` — not `noiseType` alone; and when
playing with `noiseType ≠ "none"` and `noiseLevel = 0`, no noise source
exists, yet a later smooth `updateSettings({noiseLevel: x})` with `x > 0`
still ramps the noise gain, since the smooth-path guard checks only the
stored `noiseType`. -/
theorem c10_noise_creation_guard (st : EngineState) (s : ModulationSettings)
    (a mg cg ng : Nat)
    (ha : st.audioContext = Option.some a) (hm : st.masterGain = Option.some mg)
    (hc : st.carrierGain = Option.some cg) (hn : st.noiseGain = Option.some ng) :
    (0 < bufCreateCount (play st s).2 ↔
      (s.noiseType ≠ NoiseType.none ∧ 0 < s.noiseLevel)) ∧
    ((s.noiseType ≠ NoiseType.none ∧ 0 < s.noiseLevel) →
      ∃ i : Nat, (play st s).1.noiseNode = Option.some i ∧
        AudioEvent.createNode i NodeKind.bufferSource ∈ (play st s).2 ∧
        AudioEvent.startNode i ∈ (play st s).2) ∧
    (s.noiseType ≠ NoiseType.none → s.noiseLevel = 0 →
      (st.isPlaying = true ∨ st.noiseNode = Option.none) →
      (play st s).1.noiseNode = Option.none ∧
      ∀ x : ℚ, 0 < x →
        (updateSettings (play st s).1 (onlyNoiseLevel x)).2 =
          [AudioEvent.linearRamp ng ParamKind.gain x
            (st.currentTime + RAMP_TIME)]) := by
  have hps := play_state st s a mg cg ng ha hm hc hn
  have hbc : bufCreateCount (play st s).2 =
      if s.noiseType ≠ NoiseType.none ∧ 0 < s.noiseLevel then 1 else 0 := by
    by_cases hp : st.isPlaying = true
    · rw [play_eq_playing st s a mg cg ng ha hm hc hn hp]
      have hpre := stopWith_preserved (fun _ => false) st
      have hsc : bufCreateCount (stopEngine st).2 = 0 := (stopWith_counts _ _).2.2.2
      rw [bufCreateCount_append, hsc,
        playBody_bufCreate (stopEngine st).1 s mg cg ng a ng
          (by unfold stopEngine at *; rw [hpre.1, ha])
          (by unfold stopEngine at *; rw [hpre.2.2.2.2.2.1, hn]),
        Nat.zero_add]
    · rw [play_eq_stopped st s a mg cg ng ha hm hc hn (by simpa using hp)]
      exact playBody_bufCreate st s mg cg ng a ng ha hn
  refine ⟨?_, ?_, ?_⟩
  · by_cases hcond : s.noiseType ≠ NoiseType.none ∧ 0 < s.noiseLevel <;>
      simp [hbc, hcond]
  · intro hcond
    by_cases hp : st.isPlaying = true
    · rw [play_eq_playing st s a mg cg ng ha hm hc hn hp]
      have hpre := stopWith_preserved (fun _ => false) st
      obtain ⟨i, h1, h2, h3⟩ := playBody_noise_on (stopEngine st).1 s mg cg ng a ng
        (by unfold stopEngine at *; rw [hpre.1, ha])
        (by unfold stopEngine at *; rw [hpre.2.2.2.2.2.1, hn]) hcond
      exact ⟨i, h1, List.mem_append_right _ h2, List.mem_append_right _ h3⟩
    · rw [play_eq_stopped st s a mg cg ng ha hm hc hn (by simpa using hp)]
      exact playBody_noise_on st s mg cg ng a ng ha hn hcond
  · intro ht hlev hclean
    have hcond : ¬(s.noiseType ≠ NoiseType.none ∧ 0 < s.noiseLevel) := by
      rw [hlev]; simp
    have hnn : (play st s).1.noiseNode = Option.none := by
      by_cases hp : st.isPlaying = true
      · rw [play_eq_playing st s a mg cg ng ha hm hc hn hp]
        rw [playBody_noiseNode_off (stopEngine st).1 s mg cg ng hcond]
        exact (stopWith_clears (fun _ => false) st hp (by rw [ha]; rfl)).2.2.2.2.2.2.2.2.2.2.2.1
      · rw [play_eq_stopped st s a mg cg ng ha hm hc hn (by simpa using hp)]
        rw [playBody_noiseNode_off st s mg cg ng hcond]
        rcases hclean with h | h
        · exact absurd h hp
        · exact h
    refine ⟨hnn, fun x hx => ?_⟩
    have hct : (play st s).1.currentTime = st.currentTime :=
      hps.2.2.2.2.2.2.2.2
    unfold updateSettings
    have hxne : x ≠ s.noiseLevel := by rw [hlev]; exact hx.ne'
    simp [hps.1, hps.2.1, hps.2.2.1, hps.2.2.2.2.2.1, hct, hxne, ht,
      onlyNoiseLevel, requiresRestart, changedQ, changedNoise, crossesZero]

/-- Sample settings with pink noise selected but `noiseLevel` zero: `play`
must not create a noise source. -/
def pinkZeroSettings : ModulationSettings :=
  { sampleSettings with noiseType := NoiseType.pink, noiseLevel := 0 }

unseal Rat.mul Rat.inv Rat.add Rat.sub in
/-- Witness for C10 at the fresh engine: `sampleSettings` (white noise at
level 1/10) creates a noise source; `pinkZeroSettings` does not, yet a later
`updateSettings({noiseLevel: 1/2})` ramps the noise gain (node 5). -/
theorem c10_witness :
    readyState.audioContext = Option.some 0 ∧
    readyState.noiseGain = Option.some 5 ∧
    ((0 < bufCreateCount (play readyState sampleSettings).2 ↔
        (sampleSettings.noiseType ≠ NoiseType.none ∧ 0 < sampleSettings.noiseLevel)) ∧
     ((sampleSettings.noiseType ≠ NoiseType.none ∧ 0 < sampleSettings.noiseLevel) →
       ∃ i : Nat, (play readyState sampleSettings).1.noiseNode = Option.some i ∧
         AudioEvent.createNode i NodeKind.bufferSource ∈ (play readyState sampleSettings).2 ∧
         AudioEvent.startNode i ∈ (play readyState sampleSettings).2)) ∧
    pinkZeroSettings.noiseType ≠ NoiseType.none ∧
    pinkZeroSettings.noiseLevel = 0 ∧
    ((play readyState pinkZeroSettings).1.noiseNode = Option.none ∧
     ∀ x : ℚ, 0 < x →
       (updateSettings (play readyState pinkZeroSettings).1 (onlyNoiseLevel x)).2 =
         [AudioEvent.linearRamp 5 ParamKind.gain x
           (readyState.currentTime + RAMP_TIME)]) := by
  have h1 := c10_noise_creation_guard readyState sampleSettings 0 1 2 5
    (by decide) (by decide) (by decide) (by decide)
  have h2 := c10_noise_creation_guard readyState pinkZeroSettings 0 1 2 5
    (by decide) (by decide) (by decide) (by decide)
  exact ⟨by decide, by decide, ⟨h1.1, h1.2.1⟩, by decide, by decide,
    h2.2.2 (by decide) (by decide) (Or.inr (by decide))⟩

end WaveGen
